import Mathlib

/-
Verification development for ddosflowgen (src/ddosflowgen.py together with
the topology module src/topologies/mixed_big.py).

The program is embedded shallowly:
  * machine integers are Nat with explicit `% 2 ^ 32` where 32-bit overflow
    matters (the MD5 core);
  * Python datetime values are Nat milliseconds since the Unix epoch, and
    strftime / strptime for the one format the program uses
    (%Y/%m/%dT%H:%M:%S.%f, truncated to milliseconds) are implemented with
    the standard civil-calendar conversion;
  * the global `random` generator is an environment-supplied tape
    `rand : Nat -> Nat` indexed by a draw counter threaded through the state,
    with `randint a b` reducing the tape value into the interval [a, b];
  * fallible code (Python exceptions: IndexError, TypeError, AttributeError,
    strptime ValueError, and `die`) returns Except String;
  * output files are modelled as emission events tagged with a sink
    (node name plus direction); the bytes written for an emission are
    `print_rwcut_line` of its record.
-/

deriving instance DecidableEq for Except

namespace DFG

/-! ## md5it: hashlib.md5(text.encode('utf-8')).digest() -/

/-- Bytes of a string. The program only hashes ASCII strings (dotted-quad
addresses, two-octet prefixes, decimal indices, one-letter node names), for
which UTF-8 encoding is the identity on code points. -/
def strBytes (s : String) : List Nat :=
  s.data.map Char.toNat

/-! ### Structurally recursive string primitives

Python str.split(sep), str.strip() and int() are modelled on the character
list of the string (the library versions walk byte positions by well-founded
recursion, which the kernel cannot evaluate).  Every separator the program
splits on is a single character. -/

/-- str.split(sep) for a one-character separator: split on every occurrence,
keeping empty parts. -/
def splitOnCharAux (sep : Char) : List Char → List Char → List (List Char)
  | [], acc => [acc.reverse]
  | c :: cs, acc =>
    if c = sep then acc.reverse :: splitOnCharAux sep cs []
    else splitOnCharAux sep cs (c :: acc)

def splitOnChar (sep : Char) (s : String) : List String :=
  (splitOnCharAux sep s.data []).map String.mk

/-- str.strip(): remove leading and trailing whitespace. -/
def trimStr (s : String) : String :=
  String.mk (((s.data.dropWhile Char.isWhitespace).reverse.dropWhile
    Char.isWhitespace).reverse)

/-- int() on a field matched by a strptime digit directive: the value of a
nonempty all-digit string. -/
def strToNat? (s : String) : Option Nat :=
  if s.data ≠ [] ∧ s.data.all Char.isDigit then
    some (s.data.foldl (fun n c => n * 10 + (c.toNat - 48)) 0)
  else none

def rotl32 (x n : Nat) : Nat :=
  (((x <<< n) % 4294967296) ||| (x >>> (32 - n)))

/-- The 64 MD5 additive constants (RFC 1321). -/
def md5K : List Nat :=
  [0xd76aa478, 0xe8c7b756, 0x242070db, 0xc1bdceee,
   0xf57c0faf, 0x4787c62a, 0xa8304613, 0xfd469501,
   0x698098d8, 0x8b44f7af, 0xffff5bb1, 0x895cd7be,
   0x6b901122, 0xfd987193, 0xa679438e, 0x49b40821,
   0xf61e2562, 0xc040b340, 0x265e5a51, 0xe9b6c7aa,
   0xd62f105d, 0x02441453, 0xd8a1e681, 0xe7d3fbc8,
   0x21e1cde6, 0xc33707d6, 0xf4d50d87, 0x455a14ed,
   0xa9e3e905, 0xfcefa3f8, 0x676f02d9, 0x8d2a4c8a,
   0xfffa3942, 0x8771f681, 0x6d9d6122, 0xfde5380c,
   0xa4beea44, 0x4bdecfa9, 0xf6bb4b60, 0xbebfbc70,
   0x289b7ec6, 0xeaa127fa, 0xd4ef3085, 0x04881d05,
   0xd9d4d039, 0xe6db99e5, 0x1fa27cf8, 0xc4ac5665,
   0xf4292244, 0x432aff97, 0xab9423a7, 0xfc93a039,
   0x655b59c3, 0x8f0ccc92, 0xffeff47d, 0x85845dd1,
   0x6fa87e4f, 0xfe2ce6e0, 0xa3014314, 0x4e0811a1,
   0xf7537e82, 0xbd3af235, 0x2ad7d2bb, 0xeb86d391]

/-- The 64 MD5 per-round left-rotation amounts (RFC 1321). -/
def md5S : List Nat :=
  [7, 12, 17, 22, 7, 12, 17, 22, 7, 12, 17, 22, 7, 12, 17, 22,
   5, 9, 14, 20, 5, 9, 14, 20, 5, 9, 14, 20, 5, 9, 14, 20,
   4, 11, 16, 23, 4, 11, 16, 23, 4, 11, 16, 23, 4, 11, 16, 23,
   6, 10, 15, 21, 6, 10, 15, 21, 6, 10, 15, 21, 6, 10, 15, 21]

/-- MD5 round functions; bitwise not on a 32-bit word is xor 0xffffffff. -/
def md5F (i B C D : Nat) : Nat :=
  if i < 16 then (B &&& C) ||| ((B ^^^ 0xffffffff) &&& D)
  else if i < 32 then (D &&& B) ||| ((D ^^^ 0xffffffff) &&& C)
  else if i < 48 then B ^^^ C ^^^ D
  else C ^^^ (B ||| (D ^^^ 0xffffffff))

/-- MD5 message-word schedule. -/
def md5g (i : Nat) : Nat :=
  if i < 16 then i
  else if i < 32 then (5 * i + 1) % 16
  else if i < 48 then (3 * i + 5) % 16
  else (7 * i) % 16

/-- Little-endian 32-bit word number `j` of a 64-byte chunk. -/
def leWord (chunk : List Nat) (j : Nat) : Nat :=
  chunk.getD (4 * j) 0 + 256 * chunk.getD (4 * j + 1) 0
    + 65536 * chunk.getD (4 * j + 2) 0 + 16777216 * chunk.getD (4 * j + 3) 0

/-- One of the 64 MD5 steps on the (A, B, C, D) state. -/
def md5Step (chunk : List Nat) (st : Nat × Nat × Nat × Nat) (i : Nat) :
    Nat × Nat × Nat × Nat :=
  let A := st.1
  let B := st.2.1
  let C := st.2.2.1
  let D := st.2.2.2
  let f := (md5F i B C D + A + md5K.getD i 0 + leWord chunk (md5g i)) % 4294967296
  (D, (B + rotl32 f (md5S.getD i 0)) % 4294967296, B, C)

/-- Compress one 64-byte chunk into the running MD5 state. -/
def md5Compress (chunk : List Nat) (h : Nat × Nat × Nat × Nat) :
    Nat × Nat × Nat × Nat :=
  let st := (List.range 64).foldl (md5Step chunk) h
  ((h.1 + st.1) % 4294967296, (h.2.1 + st.2.1) % 4294967296,
   (h.2.2.1 + st.2.2.1) % 4294967296, (h.2.2.2 + st.2.2.2) % 4294967296)

/-- Fold the compression function over successive 64-byte chunks; the fuel is
an upper bound on the number of chunks (the padded message length suffices). -/
def md5Chunks (fuel : Nat) (bs : List Nat) (h : Nat × Nat × Nat × Nat) :
    Nat × Nat × Nat × Nat :=
  match fuel with
  | 0 => h
  | f + 1 =>
    if bs.length < 64 then h
    else md5Chunks f (bs.drop 64) (md5Compress (bs.take 64) h)

/-- A 64-bit quantity as 8 little-endian bytes. -/
def le8 (n : Nat) : List Nat :=
  [n % 256, n / 256 % 256, n / 65536 % 256, n / 16777216 % 256,
   n / 4294967296 % 256, n / 1099511627776 % 256,
   n / 281474976710656 % 256, n / 72057594037927936 % 256]

/-- A 32-bit word as 4 little-endian bytes. -/
def le4 (n : Nat) : List Nat :=
  [n % 256, n / 256 % 256, n / 65536 % 256, n / 16777216 % 256]

/-- MD5 padding: a 0x80 byte, zeros to 56 mod 64, then the bit length as a
64-bit little-endian quantity. -/
def md5Pad (bs : List Nat) : List Nat :=
  bs ++ [0x80] ++ List.replicate ((119 - bs.length % 64) % 64) 0
    ++ le8 ((8 * bs.length) % 18446744073709551616)

/-- The 16-byte MD5 digest of a byte list. -/
def md5bytes (bs : List Nat) : List Nat :=
  let padded := md5Pad bs
  let h := md5Chunks padded.length padded (0x67452301, 0xefcdab89, 0x98badcfe, 0x10325476)
  le4 h.1 ++ le4 h.2.1 ++ le4 h.2.2.1 ++ le4 h.2.2.2

/-- `md5it(text)` of src/ddosflowgen.py: the 16-byte MD5 digest of the UTF-8
encoding of a string. -/
def md5it (text : String) : List Nat :=
  md5bytes (strBytes text)

/-! ## Timestamps

Python datetime values are modelled as Nat milliseconds since 1970-01-01.
The program formats them with strftime('%Y/%m/%dT%H:%M:%S.%f')[:-3], i.e.
truncated to millisecond precision, and parses the same format with strptime.
The conversions use the standard civil-calendar <-> day-count algorithms.
The model is restricted to post-epoch timestamps (year >= 1970), which covers
every timestamp the datasets and the synthetic offsets produce. -/

/-- Days since 1970-01-01 of a civil date (Gregorian calendar). -/
def daysFromCivil (y m d : Nat) : Nat :=
  let y1 := if m ≤ 2 then y - 1 else y
  let era := y1 / 400
  let yoe := y1 % 400
  let mp := if m > 2 then m - 3 else m + 9
  let doy := (153 * mp + 2) / 5 + (d - 1)
  let doe := yoe * 365 + yoe / 4 - yoe / 100 + doy
  era * 146097 + doe - 719468

/-- Civil date (year, month, day) of a day count since 1970-01-01. -/
def civilFromDays (z0 : Nat) : Nat × Nat × Nat :=
  let z := z0 + 719468
  let era := z / 146097
  let doe := z % 146097
  let yoe := (doe - doe / 1460 + doe / 36524 - doe / 146096) / 365
  let y := yoe + era * 400
  let doy := doe - (365 * yoe + yoe / 4 - yoe / 100)
  let mp := (5 * doy + 2) / 153
  let d := doy - (153 * mp + 2) / 5 + 1
  let m := if mp < 10 then mp + 3 else mp - 9
  (if m ≤ 2 then y + 1 else y, m, d)

def pad2 (n : Nat) : String :=
  if n < 10 then "0" ++ Nat.repr n else Nat.repr n

def pad3 (n : Nat) : String :=
  if n < 10 then "00" ++ Nat.repr n
  else if n < 100 then "0" ++ Nat.repr n
  else Nat.repr n

/-- strftime('%Y/%m/%dT%H:%M:%S.%f')[:-3] on a millisecond timestamp: the
six-digit microsecond field with its last three digits cut is exactly the
three-digit millisecond field. -/
def fmtTime (ms : Nat) : String :=
  let days := ms / 86400000
  let rem := ms % 86400000
  let c := civilFromDays days
  Nat.repr c.1 ++ "/" ++ pad2 c.2.1 ++ "/" ++ pad2 c.2.2 ++ "T"
    ++ pad2 (rem / 3600000) ++ ":" ++ pad2 (rem / 60000 % 60) ++ ":"
    ++ pad2 (rem / 1000 % 60) ++ "." ++ pad3 (rem % 1000)

/-- The '{0:.3f}'.format(seconds) rendering of the integer flow-duration
configuration values. -/
def fmtDur (seconds : Nat) : String :=
  Nat.repr seconds ++ ".000"

/-- The fractional-second field of strptime %f: one to six digits, padded on
the right to microseconds; the model keeps milliseconds. -/
def fracToMs (fs : String) : Option Nat :=
  if fs.length = 0 ∨ 6 < fs.length then none
  else (strToNat? (fs ++ String.mk (List.replicate (6 - fs.length) '0'))).map
    (fun us => us / 1000)

/-- strptime(s, '%Y/%m/%dT%H:%M:%S.%f') as a millisecond timestamp.
Returns none where Python raises ValueError (and also for pre-1970 dates,
outside the model's timeline). -/
def parseTime (s : String) : Option Nat :=
  match splitOnChar 'T' s with
  | [datePart, timePart] =>
    match splitOnChar '/' datePart with
    | [ys, mos, ds] =>
      match splitOnChar ':' timePart with
      | [hs, mis, secPart] =>
        match splitOnChar '.' secPart with
        | [ss, fs] =>
          match strToNat? ys, strToNat? mos, strToNat? ds, strToNat? hs,
              strToNat? mis, strToNat? ss, fracToMs fs with
          | some y, some mo, some d, some hh, some mi, some sec, some msec =>
            if 1970 ≤ y ∧ 1 ≤ mo ∧ mo ≤ 12 ∧ 1 ≤ d ∧ d ≤ 31 ∧ hh ≤ 23
                ∧ mi ≤ 59 ∧ sec ≤ 59 then
              some (daysFromCivil y mo d * 86400000 + hh * 3600000
                + mi * 60000 + sec * 1000 + msec)
            else none
          | _, _, _, _, _, _, _ => none
        | _ => none
      | _ => none
    | _ => none
  | _ => none

/-! ## Data model -/

/-- RESERVED_CLASS_A of src/ddosflowgen.py line 41. -/
def RESERVED_CLASS_A : List Nat := [0, 10, 127, 172, 255]

/-- One parsed rwcut flow record: the list produced by FlowGen.parse_line,
with the twelve SiLK fields FIELD_SRCIP .. FIELD_SENSOR as (stripped) strings
and the FIELD_TIMEDATE storage slot holding the parsed start time
(none on header lines, where parse_line leaves the slot unparsed). -/
structure FlowRecord where
  srcIp : String
  dstIp : String
  srcPort : String
  dstPort : String
  proto : String
  packets : String
  bytes : String
  flags : String
  sTime : String
  duration : String
  eTime : String
  sensor : String
  timeDate : Option Nat
deriving DecidableEq, Repr

/-- Node of src/topologies/mixed_big.py: one vantage point.
victim_ip is Option String for the Python None / address distinction. -/
structure Node where
  own_network : String
  name : String
  has_amplifiers : Bool
  has_bots : Bool
  victim_ip : Option String
deriving DecidableEq, Repr

/-- The module-level configuration constants of src/topologies/mixed_big.py,
gathered into one read-only value (probes_enabled = 1 is modelled as true,
matching the `== True` comparison in rewrite). -/
structure Topology where
  nodelist : List Node
  amplifiers_per_node : Nat
  bots_per_node : Nat
  synthetic_interval : Nat
  probes_enabled : Bool
  probes_duration : Nat
  probes_per_timestep : Nat
  probes_dst_port : Nat
  reflect_service_port : Nat
  reflect_client_port : Nat
  reflect_input_packets_per_flow : Nat
  reflect_input_bytes_per_flow : Nat
  reflect_output_packets_per_flow : Nat
  reflect_output_bytes_per_flow : Nat
  bot_dst_port : Nat
  bot_output_packets_per_flow : Nat
  bot_output_bytes_per_flow : Nat
  flow_duration : Nat
deriving DecidableEq, Repr

/-- The shipped topology of src/topologies/mixed_big.py. -/
def nodeA : Node := ⟨"172.16", "A", true, true, none⟩
def nodeB : Node := ⟨"172.17", "B", true, false, none⟩
def nodeC : Node := ⟨"172.18", "C", false, true, none⟩
def nodeD : Node := ⟨"172.19", "D", false, true, none⟩
def nodeE : Node := ⟨"172.20", "E", true, false, none⟩
def nodeF : Node := ⟨"172.21", "F", false, false, some "172.21.99.99"⟩

def mixed_big : Topology where
  nodelist := [nodeA, nodeB, nodeC, nodeD, nodeE, nodeF]
  amplifiers_per_node := 5
  bots_per_node := 10
  synthetic_interval := 5
  probes_enabled := true
  probes_duration := 5
  probes_per_timestep := 5
  probes_dst_port := 2323
  reflect_service_port := 123
  reflect_client_port := 80
  reflect_input_packets_per_flow := 1
  reflect_input_bytes_per_flow := 200
  reflect_output_packets_per_flow := 300
  reflect_output_bytes_per_flow := 200000
  bot_dst_port := 53
  bot_output_packets_per_flow := 20
  bot_output_bytes_per_flow := 6000
  flow_duration := 55

/-- An output sink: one of the per-node result files (node name, and whether
it is the node's inbound file). -/
structure Sink where
  nodeName : String
  isInbound : Bool
deriving DecidableEq, Repr

/-- One print_rwcut_line call: a record written to a sink. -/
structure Emis where
  sink : Sink
  record : FlowRecord
deriving DecidableEq, Repr

/-- The mutable FlowGen instance state threaded through a run: the bot port
counter, the index into the random tape, and the victim_node attribute
(none models the attribute never having been assigned). -/
structure St where
  botPortcount : Nat
  randIdx : Nat
  victimNode : Option Node
deriving DecidableEq, Repr

/-- random.randint(a, b): the next tape value reduced into [a, b]; every
result sequence realisable by the Python generator corresponds to a tape. -/
def randint (a b : Nat) (rand : Nat → Nat) (st : St) : Nat × St :=
  (a + rand st.randIdx % (b + 1 - a), { st with randIdx := st.randIdx + 1 })

/-! ## parse_line and print_rwcut_line -/

/-- FlowGen.parse_line: split the line on the field delimiter, strip every
field except the fixed-width FIELD_FLAGS (index 7), and for non-header lines
(FIELD_STIME not the literal sTime) additionally parse the start time into
the FIELD_TIMEDATE storage slot.  The rwcut format has twelve fields and a
trailing delimiter, so the split yields thirteen components; lines of any
other shape, and lines whose timestamp strptime rejects, yield none (the
Python code raises there).  File lines carry a trailing newline that
stripping removes; the model takes the line without it. -/
def parse_line (line : String) : Option FlowRecord :=
  let stripped := (splitOnChar '|' line).enum.map
    (fun p => if p.1 = 7 then p.2 else trimStr p.2)
  match stripped with
  | [c0, c1, c2, c3, c4, c5, c6, c7, c8, c9, c10, c11, _] =>
    if c8 = "sTime" then
      some ⟨c0, c1, c2, c3, c4, c5, c6, c7, c8, c9, c10, c11, none⟩
    else
      match parseTime c8 with
      | some t => some ⟨c0, c1, c2, c3, c4, c5, c6, c7, c8, c9, c10, c11, some t⟩
      | none => none
  | _ => none

/-- str.rjust(w): left-pad with spaces to width w. -/
def rjust (s : String) (w : Nat) : String :=
  String.mk (List.replicate (w - s.length) ' ') ++ s

/-- FlowGen.print_rwcut_line: the exact line written for a record (each field
right-justified to its fixed column width, flags left alone, delimiter after
every field, newline at the end). -/
def print_rwcut_line (r : FlowRecord) : String :=
  rjust r.srcIp 39 ++ "|" ++ rjust r.dstIp 39 ++ "|" ++ rjust r.srcPort 5 ++ "|"
    ++ rjust r.dstPort 5 ++ "|" ++ rjust r.proto 3 ++ "|"
    ++ rjust r.packets 10 ++ "|" ++ rjust r.bytes 10 ++ "|" ++ r.flags ++ "|"
    ++ rjust r.sTime 23 ++ "|" ++ rjust r.duration 9 ++ "|"
    ++ rjust r.eTime 23 ++ "|" ++ rjust r.sensor 3 ++ "|\n"

/-! ## Address rewriting (FlowGen.rewrite, lines 122-153) -/

/-- Turn an optional value into an Except, naming the Python exception the
corresponding access raises when the value is absent. -/
def req {α : Type} (o : Option α) (msg : String) : Except String α :=
  match o with
  | some a => Except.ok a
  | none => Except.error msg

/-- The address-transformation part of FlowGen.rewrite (lines 131-142): on a
non-header record (FIELD_SRCIP not the literal sIP) the internal-side field
(destination when inbound, source when outbound) becomes
own_network.digest[0].digest[1] of the md5 of the internal address, and the
external-side field becomes digest[pos..pos+3] of the md5 of the external
address concatenated with the node name, where pos is advanced from 0 while
digest[pos] is a reserved first octet.  Reading past the 16-byte digest
(exhaustion in the while loop, or pos+3 beyond the end in the format call)
is the Python IndexError, modelled as an error. -/
def rewriteFields (isInbound : Bool) (node : Node) (parsed : FlowRecord) :
    Except String FlowRecord :=
  if parsed.srcIp ≠ "sIP" then
    let origInternal := if isInbound then parsed.dstIp else parsed.srcIp
    let d1 := md5it origInternal
    let internalNew := node.own_network ++ "." ++ Nat.repr (d1.getD 0 0) ++ "."
      ++ Nat.repr (d1.getD 1 0)
    let p1 := if isInbound then { parsed with dstIp := internalNew }
      else { parsed with srcIp := internalNew }
    let origExternal := if isInbound then parsed.srcIp else parsed.dstIp
    let d2 := md5it (origExternal ++ node.name)
    match d2.findIdx? (fun b => !(RESERVED_CLASS_A.contains b)) with
    | none => Except.error "IndexError: reserved-octet scan ran off the digest"
    | some pos =>
      match d2.get? pos, d2.get? (pos + 1), d2.get? (pos + 2), d2.get? (pos + 3) with
      | some b0, some b1, some b2, some b3 =>
        let externalNew := Nat.repr b0 ++ "." ++ Nat.repr b1 ++ "."
          ++ Nat.repr b2 ++ "." ++ Nat.repr b3
        Except.ok (if isInbound then { p1 with srcIp := externalNew }
          else { p1 with dstIp := externalNew })
      | _, _, _, _ => Except.error "IndexError: digest octet out of range"
  else Except.ok parsed

/-! ## Attack synthesis (FlowGen.gen_*, lines 156-343)

Each Python generator copies the parsed list once and then overwrites, in
every loop iteration, every field it prints, so each emitted record is the
base record with that iteration's overrides; the loops are modelled by
structural recursion over the list of iteration indices.  All generators
return the list of print_rwcut_line emissions and the updated state. -/

/-- FlowGen.get_bot_src_port (lines 297-302). -/
def get_bot_src_port (st : St) (digest : List Nat) : String × St :=
  let current := st.botPortcount + digest.getD 2 0 + digest.getD 3 0
    + digest.getD 4 0 + digest.getD 5 0 + digest.getD 6 0 + digest.getD 7 0
    + digest.getD 8 0 + digest.getD 9 0 + digest.getD 10 0
  let src_port := 10000 + current % 55536
  (Nat.repr src_port, { st with botPortcount := st.botPortcount + 1 })

/-- The loop body of FlowGen.gen_amplifiers over the remaining amplifier
indices. -/
def gen_amplifiers_loop (topo : Topology) (rand : Nat → Nat)
    (parsed : FlowRecord) (startTime : Option Nat) (isInbound : Bool)
    (node : Node) (sink : Sink) :
    List Nat → St → Except String (List Emis × St)
  | [], st => Except.ok ([], st)
  | ampid :: rest, st => do
    let digest := md5it (node.own_network ++ Nat.repr ampid)
    let amp_ip := node.own_network ++ "." ++ Nat.repr (digest.getD 0 0) ++ "."
      ++ Nat.repr (digest.getD 1 0)
    let offset := 10 * (1 + ampid)
    let t ← req startTime "TypeError: start_time is not a datetime"
    let flowstart := t + offset
    let flowend := t + offset + 1000 * topo.flow_duration
    let base := { parsed with
      sTime := fmtTime flowstart, duration := fmtDur topo.flow_duration,
      eTime := fmtTime flowend, proto := "17", flags := "        " }
    let vn ← req st.victimNode "AttributeError: FlowGen object has no attribute victim_node"
    let vip ← req vn.victim_ip "victim_ip is None"
    if isInbound then
      let r1 := randint 0 topo.reflect_input_packets_per_flow rand st
      let r2 := randint 0 topo.reflect_input_bytes_per_flow rand r1.2
      let synth := { base with
        srcIp := vip, dstIp := amp_ip,
        srcPort := Nat.repr topo.reflect_client_port,
        dstPort := Nat.repr topo.reflect_service_port,
        packets := Nat.repr (topo.reflect_input_packets_per_flow + r1.1),
        bytes := Nat.repr (topo.reflect_input_bytes_per_flow + r2.1) }
      let restRes ← gen_amplifiers_loop topo rand parsed startTime isInbound
        node sink rest r2.2
      Except.ok (⟨sink, synth⟩ :: restRes.1, restRes.2)
    else
      let r1 := randint 0 topo.reflect_output_packets_per_flow rand st
      let r2 := randint 0 topo.reflect_output_bytes_per_flow rand r1.2
      let synth := { base with
        dstIp := vip, srcIp := amp_ip,
        dstPort := Nat.repr topo.reflect_client_port,
        srcPort := Nat.repr topo.reflect_service_port,
        packets := Nat.repr (topo.reflect_output_packets_per_flow + r1.1),
        bytes := Nat.repr (topo.reflect_output_bytes_per_flow + r2.1) }
      let restRes ← gen_amplifiers_loop topo rand parsed startTime isInbound
        node sink rest r2.2
      Except.ok (⟨sink, synth⟩ :: restRes.1, restRes.2)

/-- FlowGen.gen_amplifiers (lines 158-196). -/
def gen_amplifiers (topo : Topology) (rand : Nat → Nat) (parsed : FlowRecord)
    (startTime : Option Nat) (isInbound : Bool) (node : Node) (sink : Sink)
    (st : St) : Except String (List Emis × St) :=
  gen_amplifiers_loop topo rand parsed startTime isInbound node sink
    (List.range topo.amplifiers_per_node) st

/-- The loop body of FlowGen.gen_bots over the remaining bot indices
(only reached in the outbound direction). -/
def gen_bots_loop (topo : Topology) (rand : Nat → Nat) (parsed : FlowRecord)
    (startTime : Option Nat) (node : Node) (sink : Sink) :
    List Nat → St → Except String (List Emis × St)
  | [], st => Except.ok ([], st)
  | botid :: rest, st => do
    let digest := md5it (node.own_network ++ Nat.repr botid ++ "bot")
    let bot_ip := node.own_network ++ "." ++ Nat.repr (digest.getD 0 0) ++ "."
      ++ Nat.repr (digest.getD 1 0)
    let offset := 10 * (1 + botid)
    let t ← req startTime "TypeError: start_time is not a datetime"
    let flowstart := t + offset
    let flowend := t + offset + 1000 * topo.flow_duration
    let vn ← req st.victimNode "AttributeError: FlowGen object has no attribute victim_node"
    let vip ← req vn.victim_ip "victim_ip is None"
    let port := get_bot_src_port st digest
    let r1 := randint 0 topo.bot_output_packets_per_flow rand port.2
    let r2 := randint 0 topo.bot_output_bytes_per_flow rand r1.2
    let synth := { parsed with
      sTime := fmtTime flowstart, duration := fmtDur topo.flow_duration,
      eTime := fmtTime flowend, proto := "17", flags := "        ",
      srcIp := bot_ip, dstIp := vip, srcPort := port.1,
      dstPort := Nat.repr topo.bot_dst_port,
      packets := Nat.repr (topo.bot_output_packets_per_flow + r1.1),
      bytes := Nat.repr (topo.bot_output_bytes_per_flow + r2.1) }
    let restRes ← gen_bots_loop topo rand parsed startTime node sink rest r2.2
    Except.ok (⟨sink, synth⟩ :: restRes.1, restRes.2)

/-- FlowGen.gen_bots (lines 201-231): nothing is modelled for the inbound
direction (the early return on line 203). -/
def gen_bots (topo : Topology) (rand : Nat → Nat) (parsed : FlowRecord)
    (startTime : Option Nat) (isInbound : Bool) (node : Node) (sink : Sink)
    (st : St) : Except String (List Emis × St) :=
  if isInbound then Except.ok ([], st)
  else gen_bots_loop topo rand parsed startTime node sink
    (List.range topo.bots_per_node) st

/-- The inner amplifier loop of FlowGen.gen_victim (lines 244-264) for one
contributing node; every record goes to the victim node's inbound sink. -/
def gen_victim_amps_node (topo : Topology) (rand : Nat → Nat)
    (parsed : FlowRecord) (startTime : Option Nat) (ampnode : Node) :
    List Nat → St → Except String (List Emis × St)
  | [], st => Except.ok ([], st)
  | ampid :: rest, st => do
    let digest := md5it (ampnode.own_network ++ Nat.repr ampid)
    let amp_ip := ampnode.own_network ++ "." ++ Nat.repr (digest.getD 0 0)
      ++ "." ++ Nat.repr (digest.getD 1 0)
    let offset := 10 * (1 + ampid)
    let t ← req startTime "TypeError: start_time is not a datetime"
    let flowstart := t + offset
    let flowend := t + offset + 1000 * topo.flow_duration
    let vn ← req st.victimNode "AttributeError: FlowGen object has no attribute victim_node"
    let vip ← req vn.victim_ip "victim_ip is None"
    let r1 := randint 0 topo.reflect_output_packets_per_flow rand st
    let r2 := randint 0 topo.reflect_output_bytes_per_flow rand r1.2
    let synth := { parsed with
      sTime := fmtTime flowstart, duration := fmtDur topo.flow_duration,
      eTime := fmtTime flowend, proto := "17", flags := "        ",
      dstIp := vip, srcIp := amp_ip,
      dstPort := Nat.repr topo.reflect_client_port,
      srcPort := Nat.repr topo.reflect_service_port,
      packets := Nat.repr (topo.reflect_output_packets_per_flow + r1.1),
      bytes := Nat.repr (topo.reflect_output_bytes_per_flow + r2.1) }
    let restRes ← gen_victim_amps_node topo rand parsed startTime ampnode rest r2.2
    Except.ok (⟨⟨vn.name, true⟩, synth⟩ :: restRes.1, restRes.2)

/-- The outer amplifier-aggregation loop of FlowGen.gen_victim over the
topology's node list. -/
def gen_victim_amps (topo : Topology) (rand : Nat → Nat) (parsed : FlowRecord)
    (startTime : Option Nat) :
    List Node → St → Except String (List Emis × St)
  | [], st => Except.ok ([], st)
  | n :: rest, st =>
    if n.has_amplifiers then do
      let a ← gen_victim_amps_node topo rand parsed startTime n
        (List.range topo.amplifiers_per_node) st
      let b ← gen_victim_amps topo rand parsed startTime rest a.2
      Except.ok (a.1 ++ b.1, b.2)
    else gen_victim_amps topo rand parsed startTime rest st

/-- The inner bot loop of FlowGen.gen_victim (lines 269-289) for one
contributing node. -/
def gen_victim_bots_node (topo : Topology) (rand : Nat → Nat)
    (parsed : FlowRecord) (startTime : Option Nat) (botnode : Node) :
    List Nat → St → Except String (List Emis × St)
  | [], st => Except.ok ([], st)
  | botid :: rest, st => do
    let digest := md5it (botnode.own_network ++ Nat.repr botid ++ "bot")
    let bot_ip := botnode.own_network ++ "." ++ Nat.repr (digest.getD 0 0)
      ++ "." ++ Nat.repr (digest.getD 1 0)
    let offset := 10 * (1 + botid)
    let t ← req startTime "TypeError: start_time is not a datetime"
    let flowstart := t + offset
    let flowend := t + offset + 1000 * topo.flow_duration
    let vn ← req st.victimNode "AttributeError: FlowGen object has no attribute victim_node"
    let vip ← req vn.victim_ip "victim_ip is None"
    let port := get_bot_src_port st digest
    let r1 := randint 0 topo.bot_output_packets_per_flow rand port.2
    let r2 := randint 0 topo.bot_output_bytes_per_flow rand r1.2
    let synth := { parsed with
      sTime := fmtTime flowstart, duration := fmtDur topo.flow_duration,
      eTime := fmtTime flowend, proto := "17", flags := "        ",
      srcIp := bot_ip, dstIp := vip, srcPort := port.1,
      dstPort := Nat.repr topo.bot_dst_port,
      packets := Nat.repr (topo.bot_output_packets_per_flow + r1.1),
      bytes := Nat.repr (topo.bot_output_bytes_per_flow + r2.1) }
    let restRes ← gen_victim_bots_node topo rand parsed startTime botnode rest r2.2
    Except.ok (⟨⟨vn.name, true⟩, synth⟩ :: restRes.1, restRes.2)

/-- The outer bot-aggregation loop of FlowGen.gen_victim. -/
def gen_victim_bots (topo : Topology) (rand : Nat → Nat) (parsed : FlowRecord)
    (startTime : Option Nat) :
    List Node → St → Except String (List Emis × St)
  | [], st => Except.ok ([], st)
  | n :: rest, st =>
    if n.has_bots then do
      let a ← gen_victim_bots_node topo rand parsed startTime n
        (List.range topo.bots_per_node) st
      let b ← gen_victim_bots topo rand parsed startTime rest a.2
      Except.ok (a.1 ++ b.1, b.2)
    else gen_victim_bots topo rand parsed startTime rest st

/-- FlowGen.gen_victim (lines 236-289): in the inbound direction, aggregate
the amplifier records of every amplifier node and then the bot records of
every bot node into the victim's inbound sink; nothing otherwise. -/
def gen_victim (topo : Topology) (rand : Nat → Nat) (parsed : FlowRecord)
    (startTime : Option Nat) (isInbound : Bool) (st : St) :
    Except String (List Emis × St) :=
  if isInbound then do
    let a ← gen_victim_amps topo rand parsed startTime topo.nodelist st
    let b ← gen_victim_bots topo rand parsed startTime topo.nodelist a.2
    Except.ok (a.1 ++ b.1, b.2)
  else Except.ok ([], st)

/-- The re-draw loop of FlowGen.gen_rand_ip for the first octet: draw from
randint(1, 255) while the result is a reserved class A value.  The fuel
bounds the re-draws; exhaustion cannot occur on a tape that eventually
yields a non-reserved value. -/
def randOctetLoop (rand : Nat → Nat) : Nat → St → Except String (Nat × St)
  | 0, _ => Except.error "first-octet re-draw loop exhausted"
  | fuel + 1, st =>
    let r := randint 1 255 rand st
    if RESERVED_CLASS_A.contains r.1 then randOctetLoop rand fuel r.2
    else Except.ok r

def RAND_FUEL : Nat := 4294967296

/-- FlowGen.gen_rand_ip (lines 333-343); the Python prefix argument is
called pfx here. -/
def gen_rand_ip (rand : Nat → Nat) (pfx : Option String) (st : St) :
    Except String (String × St) := do
  let p ← match pfx with
    | none => do
      let o1 ← randOctetLoop rand RAND_FUEL st
      let o2 := randint 1 255 rand o1.2
      pure (Nat.repr o1.1 ++ "." ++ Nat.repr o2.1, o2.2)
    | some p => pure (p, st)
  let o3 := randint 1 255 rand p.2
  let o4 := randint 1 255 rand o3.2
  Except.ok (p.1 ++ "." ++ Nat.repr o3.1 ++ "." ++ Nat.repr o4.1, o4.2)

/-- The probe loop of FlowGen.gen_probes (lines 312-328), reached only in
the inbound direction. -/
def gen_probes_loop (topo : Topology) (rand : Nat → Nat) (parsed : FlowRecord)
    (startTime : Option Nat) (node : Node) (sink : Sink) :
    List Nat → St → Except String (List Emis × St)
  | [], st => Except.ok ([], st)
  | probe :: rest, st => do
    let offset := 15 * (1 + probe)
    let t ← req startTime "TypeError: start_time is not a datetime"
    let flowstart := t + offset
    let flowend := t + offset + 1000 * topo.probes_duration
    let src ← gen_rand_ip rand none st
    let dst ← gen_rand_ip rand (some node.own_network) src.2
    let sp := randint 49152 65535 rand dst.2
    let synth := { parsed with
      sTime := fmtTime flowstart, duration := fmtDur topo.probes_duration,
      eTime := fmtTime flowend, proto := "6", flags := " S      ",
      srcIp := src.1, dstIp := dst.1, srcPort := Nat.repr sp.1,
      dstPort := Nat.repr topo.probes_dst_port,
      packets := Nat.repr (1 + topo.probes_duration),
      bytes := Nat.repr (64 * (1 + topo.probes_duration)) }
    let restRes ← gen_probes_loop topo rand parsed startTime node sink rest sp.2
    Except.ok (⟨sink, synth⟩ :: restRes.1, restRes.2)

/-- FlowGen.gen_probes (lines 308-328). -/
def gen_probes (topo : Topology) (rand : Nat → Nat) (parsed : FlowRecord)
    (startTime : Option Nat) (isInbound : Bool) (node : Node) (sink : Sink)
    (st : St) : Except String (List Emis × St) :=
  if isInbound then
    gen_probes_loop topo rand parsed startTime node sink
      (List.range topo.probes_per_timestep) st
  else Except.ok ([], st)

/-! ## The per-(record, node) step and the orchestrator -/

/-- FlowGen.rewrite (lines 122-153): transform the shared parsed record in
place, print it to the node's sink for the direction, and on a trigger run
the applicable generators in source order (amplifiers, bots, the
victim-identity comparison -- which reads the victim_node attribute and so
fails when it was never assigned -- the victim aggregation, probes).
Returns the record as left mutated, the emissions, and the state. -/
def rewrite (topo : Topology) (rand : Nat → Nat) (parsed : FlowRecord)
    (isInbound : Bool) (node : Node) (addAttack : Bool) (st : St) :
    Except String (FlowRecord × List Emis × St) := do
  let sink : Sink := ⟨node.name, isInbound⟩
  let parsed2 ← rewriteFields isInbound node parsed
  let base : Emis := ⟨sink, parsed2⟩
  if addAttack then do
    let startTime := parsed2.timeDate
    let e1 ← if node.has_amplifiers then
        gen_amplifiers topo rand parsed2 startTime isInbound node sink st
      else Except.ok ([], st)
    let e2 ← if node.has_bots then
        gen_bots topo rand parsed2 startTime isInbound node sink e1.2
      else Except.ok ([], e1.2)
    let vn ← req e2.2.victimNode "AttributeError: FlowGen object has no attribute victim_node"
    let e3 ← if node = vn then
        gen_victim topo rand parsed2 startTime isInbound e2.2
      else Except.ok ([], e2.2)
    let e4 ← if topo.probes_enabled then
        gen_probes topo rand parsed2 startTime isInbound node sink e3.2
      else Except.ok ([], e3.2)
    Except.ok (parsed2, base :: (e1.1 ++ e2.1 ++ e3.1 ++ e4.1), e4.2)
  else Except.ok (parsed2, [base], st)

/-- The `for node in topology.nodelist` loop of FlowGen.foreach_noise
(lines 98-99): every node's rewrite receives the record value left by the
previous node's rewrite (in Python, the same mutated list object). -/
def processNodes (topo : Topology) (rand : Nat → Nat) (isInbound : Bool)
    (addAttack : Bool) :
    List Node → FlowRecord → St → Except String (List Emis × FlowRecord × St)
  | [], parsed, st => Except.ok ([], parsed, st)
  | node :: rest, parsed, st => do
    let r ← rewrite topo rand parsed isInbound node addAttack st
    let rr ← processNodes topo rand isInbound addAttack rest r.1 r.2.2
    Except.ok (r.2.1 ++ rr.1, rr.2)

/-- The trigger bookkeeping of FlowGen.foreach_noise (lines 91-96): mark the
line when the counter exceeds the interval and set the counter to 1, else
increment the counter. -/
def triggerStep (interval counter : Nat) : Bool × Nat :=
  if counter > interval then (true, 1) else (false, counter + 1)

/-- The line loop of FlowGen.foreach_noise over the noise file, carrying the
trigger counter: advance the trigger, parse the line (a strptime failure
aborts the run), and fan the record out across every node. -/
def foreachLoop (topo : Topology) (rand : Nat → Nat) (isInbound : Bool) :
    List String → Nat → St → Except String (List Emis × St)
  | [], _, st => Except.ok ([], st)
  | line :: rest, counter, st => do
    let tc := triggerStep topo.synthetic_interval counter
    let parsed ← req (parse_line line) "ValueError: unparsable line"
    let r ← processNodes topo rand isInbound tc.1 topo.nodelist parsed st
    let rr ← foreachLoop topo rand isInbound rest tc.2 r.2.2
    Except.ok (r.1 ++ rr.1, rr.2)

/-- FlowGen.foreach_noise (lines 88-101): the counter starts at 0 for each
direction pass (flushing the sinks has no observable effect in the model). -/
def foreach_noise (topo : Topology) (rand : Nat → Nat) (lines : List String)
    (isInbound : Bool) (st : St) : Except String (List Emis × St) :=
  foreachLoop topo rand isInbound lines 0 st

/-- FlowGen.run (lines 77-86): one inbound pass then one outbound pass over
the respective noise files, each with the bot port counter reset to 0. -/
def run (topo : Topology) (rand : Nat → Nat)
    (inboundLines outboundLines : List String) (st : St) :
    Except String (List Emis × St) := do
  let a ← foreach_noise topo rand inboundLines true { st with botPortcount := 0 }
  let b ← foreach_noise topo rand outboundLines false { a.2 with botPortcount := 0 }
  Except.ok (a.1 ++ b.1, b.2)

/-- The freshly constructed instance state: no bot emissions yet, no random
draws consumed, victim_node not assigned. -/
def initSt : St := ⟨0, 0, none⟩

/-- One step of the __init__ topology scan (lines 70-74): a node with a
victim address becomes the victim node, and a victim that also declares
amplifiers or bots is the fatal topology error. -/
def initStep (st : St) (node : Node) : Except String St :=
  match node.victim_ip with
  | some _ =>
    if node.has_amplifiers || node.has_bots then
      Except.error "Error in topology: victim should not contain attackers"
    else Except.ok { st with victimNode := some node }
  | none => Except.ok st

/-- The topology scan of FlowGen.__init__ (lines 70-74); argument and
output-directory handling are the out-of-scope CLI collaborators. -/
def initFlowGen (topo : Topology) : Except String St :=
  topo.nodelist.foldlM initStep initSt

/-! ## Concrete artifacts shared by the claim instances -/

/-- A representative non-header rwcut noise line. -/
def line0 : String :=
  "      10.1.1.5|  93.184.216.34| 1234|   80|  6|         3|       180| S      |2024/01/01T00:00:00.000|    0.010|2024/01/01T00:00:00.010| S0|"

/-- The record parse_line produces for line0 (2024-01-01T00:00:00.000 is
millisecond timestamp 1704067200000). -/
def rec0 : FlowRecord :=
  ⟨"10.1.1.5", "93.184.216.34", "1234", "80", "6", "3", "180", " S      ",
   "2024/01/01T00:00:00.000", "0.010", "2024/01/01T00:00:00.010", "S0",
   some 1704067200000⟩

/-- A concrete random tape: every draw takes the low end of its range. -/
def rand0 : Nat → Nat := fun _ => 0

/-- A one-node topology whose only node is the victim, with probes enabled
and the synthetic interval configured to 0. -/
def nodeV : Node := ⟨"172.30", "V", false, false, some "172.30.9.9"⟩

def topoV : Topology where
  nodelist := [nodeV]
  amplifiers_per_node := 1
  bots_per_node := 1
  synthetic_interval := 0
  probes_enabled := true
  probes_duration := 5
  probes_per_timestep := 1
  probes_dst_port := 2323
  reflect_service_port := 123
  reflect_client_port := 80
  reflect_input_packets_per_flow := 1
  reflect_input_bytes_per_flow := 200
  reflect_output_packets_per_flow := 300
  reflect_output_bytes_per_flow := 200000
  bot_dst_port := 53
  bot_output_packets_per_flow := 20
  bot_output_bytes_per_flow := 6000
  flow_duration := 55

/-- The instance state after initFlowGen on topoV. -/
def stV : St := ⟨0, 0, some nodeV⟩

/-! ## Claim C4: the periodic synthesis trigger -/

/-- The trigger counter of foreach_noise after processing i lines of one
direction pass (iterating triggerStep from the initial 0). -/
def counterAfter (interval : Nat) : Nat → Nat
  | 0 => 0
  | i + 1 => (triggerStep interval (counterAfter interval i)).2

/-- Whether foreach_noise marks the line at 0-based position i of a
direction pass as a synthesis trigger. -/
def triggerAt (interval i : Nat) : Bool :=
  (triggerStep interval (counterAfter interval i)).1

theorem counterAfter_closed (n : Nat) :
    ∀ i, counterAfter n i = if i = 0 then 0 else (i - 1) % (n + 1) + 1 := by
  intro i
  induction i with
  | zero => rfl
  | succ i ih =>
    show (triggerStep n (counterAfter n i)).2 = _
    rw [ih, triggerStep]
    rcases Nat.eq_zero_or_pos i with hi | hi
    · subst hi
      simp
    · have h1 : ¬ i = 0 := by omega
      have hrlt : (i - 1) % (n + 1) < n + 1 := Nat.mod_lt _ (by omega)
      have hi1 : i = (i - 1) + 1 := by omega
      simp only [if_neg h1, Nat.add_sub_cancel]
      by_cases hc : (i - 1) % (n + 1) + 1 > n
      · have hrn : (i - 1) % (n + 1) = n := by omega
        have hmod : i % (n + 1) = 0 := by
          conv_lhs => rw [hi1]
          rw [Nat.add_mod, hrn]
          simp
        simp [if_pos hc, hmod]
      · have hn : 1 ≤ n := by omega
        have hlt : (i - 1) % (n + 1) + 1 < n + 1 := by omega
        have hmod : i % (n + 1) = (i - 1) % (n + 1) + 1 := by
          conv_lhs => rw [hi1]
          rw [Nat.add_mod, Nat.mod_eq_of_lt (show 1 < n + 1 by omega),
            Nat.mod_eq_of_lt hlt]
        simp [if_neg hc, hmod]

/-- line0 as rewritten for nodeV in the inbound direction. -/
def rec0V : FlowRecord :=
  { rec0 with srcIp := "234.56.119.13", dstIp := "172.30.164.108" }

set_option maxRecDepth 1000000
set_option maxHeartbeats 1000000

/-- Claim C4 counterexample: the claim asserts that with the configured
interval 0 the very first record of the pass triggers synthesis.  In the
code the counter starts at 0 and the trigger condition is strict
(counter > interval), so the first record is NOT marked: triggerStep sends
counter 0 to (no trigger, 1), and a one-line inbound pass over a one-node
probing topology with interval 0 emits exactly the one rewritten real
record and no synthetic record. -/
theorem C4_counterexample :
    triggerStep 0 0 = (false, 1)
    ∧ triggerAt 0 0 = false
    ∧ foreach_noise topoV rand0 [line0] true stV
        = Except.ok ([⟨⟨"V", true⟩, rec0V⟩], stV) := by
  refine ⟨rfl, rfl, ?_⟩
  decide

/-- Claim C4 (amended): in each direction pass the line at 0-based position
i is marked as a synthesis trigger exactly when the counter (starting at 0)
strictly exceeds the configured interval, which happens precisely for the
positions i > 0 divisible by interval + 1 -- so the very first record never
triggers, not even when the interval is 0; and on a trigger the counter is
reset to 1 (not to its starting value 0). -/
theorem C4_trigger_law (n i : Nat) :
    (triggerAt n i = true ↔ 0 < i ∧ (n + 1) ∣ i)
    ∧ (triggerAt n i = true → counterAfter n (i + 1) = 1) := by
  constructor
  · show (triggerStep n (counterAfter n i)).1 = true ↔ _
    rw [counterAfter_closed n i, triggerStep]
    rcases Nat.eq_zero_or_pos i with hi | hi
    · subst hi
      simp
    · have h1 : ¬ i = 0 := by omega
      rw [if_neg h1]
      have hrlt : (i - 1) % (n + 1) < n + 1 := Nat.mod_lt _ (by omega)
      by_cases hc : (i - 1) % (n + 1) + 1 > n
      · have hrn : (i - 1) % (n + 1) = n := by omega
        have hmod : i % (n + 1) = 0 := by
          conv_lhs => rw [show i = (i - 1) + 1 by omega]
          rw [Nat.add_mod, hrn]
          simp
        have hdvd : (n + 1) ∣ i := Nat.dvd_of_mod_eq_zero hmod
        simp [if_pos hc, hi, hdvd]
      · have hn : 1 ≤ n := by omega
        have hlt : (i - 1) % (n + 1) + 1 < n + 1 := by omega
        have hmod : i % (n + 1) = (i - 1) % (n + 1) + 1 := by
          conv_lhs => rw [show i = (i - 1) + 1 by omega]
          rw [Nat.add_mod, Nat.mod_eq_of_lt (show 1 < n + 1 by omega),
            Nat.mod_eq_of_lt hlt]
        have hnd : ¬ (n + 1) ∣ i := by
          intro hd
          have h0 : i % (n + 1) = 0 := Nat.mod_eq_zero_of_dvd hd
          omega
        simp [if_neg hc, hnd]
  · intro h
    show (triggerStep n (counterAfter n i)).2 = 1
    have h1 : (triggerStep n (counterAfter n i)).1 = true := h
    rw [triggerStep] at h1 ⊢
    by_cases hc : counterAfter n i > n
    · simp [if_pos hc]
    · rw [if_neg hc] at h1
      simp at h1

/-- Witness for C4_trigger_law at interval 0, line position 2. -/
theorem C4_trigger_law_witness :
    (triggerAt 0 2 = true ↔ 0 < 2 ∧ (0 + 1) ∣ 2)
    ∧ (triggerAt 0 2 = true → counterAfter 0 (2 + 1) = 1) :=
  C4_trigger_law 0 2

/-! ## Claim C3: the external-address digest window -/

/-- The digest from which rewrite draws the external-address window: the
md5 of the original external address concatenated with the node name
(line 137; the external side is the source when inbound, the destination
when outbound). -/
def extDigest (isInbound : Bool) (node : Node) (parsed : FlowRecord) : List Nat :=
  md5it ((if isInbound then parsed.srcIp else parsed.dstIp) ++ node.name)

/-- The external-address rule as the spec words it, for comparison with the
code: the window start p is the smallest index such that NONE of the four
consumed digest bytes digest[p..p+3] lies in the reserved set (none when no
window inside the 16-byte digest qualifies). -/
def specExternalAddr (origExternal nodeName : String) : Option String :=
  let d := md5it (origExternal ++ nodeName)
  match (List.range 13).find? (fun p =>
      !(RESERVED_CLASS_A.contains (d.getD p 0))
      && !(RESERVED_CLASS_A.contains (d.getD (p + 1) 0))
      && !(RESERVED_CLASS_A.contains (d.getD (p + 2) 0))
      && !(RESERVED_CLASS_A.contains (d.getD (p + 3) 0))) with
  | some p => some (Nat.repr (d.getD p 0) ++ "." ++ Nat.repr (d.getD (p + 1) 0)
      ++ "." ++ Nat.repr (d.getD (p + 2) 0) ++ "." ++ Nat.repr (d.getD (p + 3) 0))
  | none => none

def nodeC3 : Node := ⟨"172.18", "A", false, false, none⟩

def recC3 : FlowRecord := { rec0 with srcIp := "93.184.216.88" }

theorem md5bytes_length (bs : List Nat) : (md5bytes bs).length = 16 := by
  simp [md5bytes, le4]

theorem contains_reserved_iff (b : Nat) :
    RESERVED_CLASS_A.contains b = true ↔ b ∈ RESERVED_CLASS_A := by
  simp [List.contains_iff_exists_mem_beq]

/-- Claim C3 counterexample: for the inbound record with external (source)
address 93.184.216.88 seen by a vantage point named A, the digest of
"93.184.216.88A" starts 106, 10, 218, 69, ...; the code checks only the
first consumed byte (106, unreserved) and emits 106.10.218.69, whose second
octet 10 IS in the reserved set, whereas the smallest index whose full
four-byte window avoids the reserved set is 2, giving 218.69.27.167 under
the claimed rule.  The two disagree, so the rewritten external address is
not the one the claim specifies. -/
theorem C3_counterexample :
    md5it ("93.184.216.88" ++ "A")
      = [106, 10, 218, 69, 27, 167, 50, 81, 145, 160, 32, 168, 169, 41, 232, 197]
    ∧ rewriteFields true nodeC3 recC3
      = Except.ok { recC3 with srcIp := "106.10.218.69", dstIp := "172.18.164.108" }
    ∧ specExternalAddr "93.184.216.88" "A" = some "218.69.27.167"
    ∧ (10 : Nat) ∈ RESERVED_CLASS_A
    ∧ "106.10.218.69" ≠ "218.69.27.167" :=
  ⟨by decide, by decide, by decide, by decide, by decide⟩

/-- Claim C3 (amended): for every non-header record, every vantage point and
every direction, the rewritten external address is digest[p].digest[p+1].
digest[p+2].digest[p+3] of the 16-byte digest of (original external address
concatenated with the vantage-point name), where p is the smallest index
such that digest[p] -- the FIRST of the four consumed bytes only -- does not
lie in the reserved set {0, 10, 127, 172, 255}; the other three consumed
bytes are not checked, and the window stays inside the digest whenever the
rewrite succeeds. -/
theorem C3_external_window (isInbound : Bool) (node : Node)
    (parsed r : FlowRecord) (hh : parsed.srcIp ≠ "sIP")
    (hok : rewriteFields isInbound node parsed = Except.ok r) :
    ∃ p,
      (∀ q, q < p → (extDigest isInbound node parsed).getD q 0 ∈ RESERVED_CLASS_A)
      ∧ (extDigest isInbound node parsed).getD p 0 ∉ RESERVED_CLASS_A
      ∧ p + 3 < 16
      ∧ (if isInbound then r.srcIp else r.dstIp)
        = Nat.repr ((extDigest isInbound node parsed).getD p 0) ++ "."
          ++ Nat.repr ((extDigest isInbound node parsed).getD (p + 1) 0) ++ "."
          ++ Nat.repr ((extDigest isInbound node parsed).getD (p + 2) 0) ++ "."
          ++ Nat.repr ((extDigest isInbound node parsed).getD (p + 3) 0) := by
  unfold rewriteFields at hok
  rw [if_pos hh] at hok
  dsimp only at hok
  split at hok
  next hfind => exact Except.noConfusion hok
  next pos hfind =>
    split at hok
    next b0 b1 b2 b3 hg0 hg1 hg2 hg3 =>
      rw [List.findIdx?_eq_some_iff_getElem] at hfind
      obtain ⟨hplen, hp, hq⟩ := hfind
      have hb0 : (extDigest isInbound node parsed).getD pos 0 = b0 := by
        rw [extDigest, List.getD_eq_get?, hg0]; rfl
      have hb1 : (extDigest isInbound node parsed).getD (pos + 1) 0 = b1 := by
        rw [extDigest, List.getD_eq_get?, hg1]; rfl
      have hb2 : (extDigest isInbound node parsed).getD (pos + 2) 0 = b2 := by
        rw [extDigest, List.getD_eq_get?, hg2]; rfl
      have hb3 : (extDigest isInbound node parsed).getD (pos + 3) 0 = b3 := by
        rw [extDigest, List.getD_eq_get?, hg3]; rfl
      refine ⟨pos, ?_, ?_, ?_, ?_⟩
      · intro q hqp
        have hmem := hq q hqp
        simp only [Bool.not_eq_true', Bool.not_eq_false] at hmem
        rw [← contains_reserved_iff, extDigest, List.getD_eq_getElem?_getD,
          List.getElem?_eq_getElem (Nat.lt_trans hqp hplen)]
        simpa using hmem
      · rw [hb0]
        obtain ⟨h0, hgb⟩ := List.get?_eq_some.mp hg0
        intro hmem
        have hcon : RESERVED_CLASS_A.contains b0 = true :=
          (contains_reserved_iff _).mpr hmem
        have hb : (!(RESERVED_CLASS_A.contains
            ((md5it ((if isInbound then parsed.srcIp else parsed.dstIp)
              ++ node.name)).get ⟨pos, h0⟩))) = true := hp
        rw [hgb, hcon] at hb
        exact absurd hb (by decide)
      · obtain ⟨hlt, -⟩ := List.get?_eq_some.mp hg3
        have h16 : (md5it ((if isInbound then parsed.srcIp else parsed.dstIp)
            ++ node.name)).length = 16 := md5bytes_length _
        omega
      · injection hok with hr
        rw [hb0, hb1, hb2, hb3, ← hr]
        cases isInbound <;> simp
    next h0 =>
      exact Except.noConfusion hok

/-- Witness for C3_external_window at the counterexample input: the digest
of "93.184.216.88A" viewed from vantage point A, inbound. -/
theorem C3_external_window_witness :
    ∃ p,
      (∀ q, q < p → (extDigest true nodeC3 recC3).getD q 0 ∈ RESERVED_CLASS_A)
      ∧ (extDigest true nodeC3 recC3).getD p 0 ∉ RESERVED_CLASS_A
      ∧ p + 3 < 16
      ∧ ({ recC3 with srcIp := "106.10.218.69", dstIp := "172.18.164.108" }
          : FlowRecord).srcIp
        = Nat.repr ((extDigest true nodeC3 recC3).getD p 0) ++ "."
          ++ Nat.repr ((extDigest true nodeC3 recC3).getD (p + 1) 0) ++ "."
          ++ Nat.repr ((extDigest true nodeC3 recC3).getD (p + 2) 0) ++ "."
          ++ Nat.repr ((extDigest true nodeC3 recC3).getD (p + 3) 0) :=
  C3_external_window true nodeC3 recC3
    { recC3 with srcIp := "106.10.218.69", dstIp := "172.18.164.108" }
    (by decide) (by decide)

/-! ## Claim C6: the internal-address rewrite -/

/-- An outbound record carrying the internal address 93.184.216.34 in its
source field. -/
def recC6 : FlowRecord := { rec0 with srcIp := "93.184.216.34", dstIp := "10.1.1.5" }

/-- Claim C6: for any fixed internal address A and vantage point, the
rewritten internal address is own_network.digest[0].digest[1] of the
16-byte digest of A alone, and it is the same whether A appears as the
destination of an inbound record or as the source of an outbound record
(the rewrite is a pure function, so it is also identical on every
invocation). -/
theorem C6_internal_rewrite (node : Node) (A : String) (rIn rOut r1 r2 : FlowRecord)
    (h1 : rIn.srcIp ≠ "sIP") (h2 : rOut.srcIp ≠ "sIP")
    (hA1 : rIn.dstIp = A) (hA2 : rOut.srcIp = A)
    (hok1 : rewriteFields true node rIn = Except.ok r1)
    (hok2 : rewriteFields false node rOut = Except.ok r2) :
    r1.dstIp = node.own_network ++ "." ++ Nat.repr ((md5it A).getD 0 0) ++ "."
      ++ Nat.repr ((md5it A).getD 1 0)
    ∧ r2.srcIp = r1.dstIp := by
  unfold rewriteFields at hok1 hok2
  rw [if_pos h1] at hok1
  rw [if_pos h2] at hok2
  dsimp only at hok1 hok2
  split at hok1
  next => exact Except.noConfusion hok1
  next pos hfind =>
    split at hok1
    next b0 b1 b2 b3 hg0 hg1 hg2 hg3 =>
      injection hok1 with hr1
      split at hok2
      next => exact Except.noConfusion hok2
      next pos2 hfind2 =>
        split at hok2
        next c0 c1 c2 c3 hq0 hq1 hq2 hq3 =>
          injection hok2 with hr2
          constructor
          · rw [← hr1, hA1]
            simp
          · rw [← hr1, ← hr2, hA2, hA1]
            simp
        next h0 => exact Except.noConfusion hok2
    next h0 => exact Except.noConfusion hok1

/-- Witness for C6_internal_rewrite: address 93.184.216.34 at vantage point
nodeC3, as the destination of an inbound record and as the source of an
outbound one. -/
theorem C6_internal_rewrite_witness :
    ({ rec0 with srcIp := "30.192.53.249", dstIp := "172.18.164.108" }
      : FlowRecord).dstIp
      = nodeC3.own_network ++ "." ++ Nat.repr ((md5it "93.184.216.34").getD 0 0)
        ++ "." ++ Nat.repr ((md5it "93.184.216.34").getD 1 0)
    ∧ ({ recC6 with srcIp := "172.18.164.108", dstIp := "30.192.53.249" }
      : FlowRecord).srcIp
      = ({ rec0 with srcIp := "30.192.53.249", dstIp := "172.18.164.108" }
      : FlowRecord).dstIp :=
  C6_internal_rewrite nodeC3 "93.184.216.34" rec0 recC6
    { rec0 with srcIp := "30.192.53.249", dstIp := "172.18.164.108" }
    { recC6 with srcIp := "172.18.164.108", dstIp := "30.192.53.249" }
    (by decide) (by decide) (by decide) (by decide) (by decide) (by decide)

/-! ## Claim C10: a topology without a victim node -/

theorem initFold_no_victim (l : List Node) :
    ∀ st : St, (∀ n ∈ l, n.victim_ip = none) →
      l.foldlM initStep st = Except.ok st := by
  induction l with
  | nil => intro st _; rfl
  | cons n rest ih =>
    intro st h
    have hn : n.victim_ip = none := h n (by simp)
    have hstep : initStep st n = Except.ok st := by
      rw [initStep, hn]
    rw [List.foldlM_cons, hstep]
    show rest.foldlM initStep st = Except.ok st
    exact ih st (fun m hm => h m (by simp [hm]))

theorem gen_amplifiers_loop_no_victim (topo : Topology) (rand : Nat → Nat)
    (parsed : FlowRecord) (startTime : Option Nat) (isInbound : Bool)
    (node : Node) (sink : Sink) (st : St) (hst : st.victimNode = none) :
    ∀ ids, (∃ msg, gen_amplifiers_loop topo rand parsed startTime isInbound
        node sink ids st = Except.error msg)
      ∨ gen_amplifiers_loop topo rand parsed startTime isInbound node sink ids st
        = Except.ok ([], st)
  | [] => Or.inr rfl
  | i :: l => by
    left
    cases ht : startTime with
    | none =>
      exact ⟨"TypeError: start_time is not a datetime",
        by simp [gen_amplifiers_loop, req, ht, Bind.bind, Except.bind]⟩
    | some t =>
      exact ⟨"AttributeError: FlowGen object has no attribute victim_node",
        by simp [gen_amplifiers_loop, req, ht, hst, Bind.bind, Except.bind]⟩

theorem gen_bots_loop_no_victim (topo : Topology) (rand : Nat → Nat)
    (parsed : FlowRecord) (startTime : Option Nat)
    (node : Node) (sink : Sink) (st : St) (hst : st.victimNode = none) :
    ∀ ids, (∃ msg, gen_bots_loop topo rand parsed startTime
        node sink ids st = Except.error msg)
      ∨ gen_bots_loop topo rand parsed startTime node sink ids st
        = Except.ok ([], st)
  | [] => Or.inr rfl
  | i :: l => by
    left
    cases ht : startTime with
    | none =>
      exact ⟨"TypeError: start_time is not a datetime",
        by simp [gen_bots_loop, req, ht, Bind.bind, Except.bind]⟩
    | some t =>
      exact ⟨"AttributeError: FlowGen object has no attribute victim_node",
        by simp [gen_bots_loop, req, ht, hst, Bind.bind, Except.bind]⟩

/-- Claim C10: when no vantage point in the topology declares a victim
address, construction succeeds without any configuration error but leaves
the victim-node reference unassigned, and processing any synthesis-triggered
non-header record then fails with an unhandled error: either inside the
amplifier/bot generators (which read the victim reference for the victim
address) or at the victim-identity comparison in the per-record rewrite. -/
theorem C10_missing_victim (topo : Topology)
    (h : ∀ n ∈ topo.nodelist, n.victim_ip = none)
    (rand : Nat → Nat) (parsed : FlowRecord) (dir : Bool) (node : Node) (st : St)
    (hst : st.victimNode = none) (hhdr : parsed.srcIp ≠ "sIP") :
    (initFlowGen topo = Except.ok initSt ∧ initSt.victimNode = none)
    ∧ ∃ msg, rewrite topo rand parsed dir node true st = Except.error msg := by
  refine ⟨⟨initFold_no_victim _ _ h, rfl⟩, ?_⟩
  rw [rewrite]
  cases hrw : rewriteFields dir node parsed with
  | error m =>
    exact ⟨m, by simp [Bind.bind, Except.bind]⟩
  | ok p2 =>
    cases ha : node.has_amplifiers with
    | true =>
      rcases gen_amplifiers_loop_no_victim topo rand p2 p2.timeDate dir node
          ⟨node.name, dir⟩ st hst (List.range topo.amplifiers_per_node) with
        ⟨m, hm⟩ | hm
      · exact ⟨m, by
          simp [Bind.bind, Except.bind, ha, gen_amplifiers, hm]⟩
      · cases hb : node.has_bots with
        | true =>
          cases dir with
          | true =>
            exact ⟨"AttributeError: FlowGen object has no attribute victim_node",
              by simp [Bind.bind, Except.bind, ha, hb, gen_amplifiers, hm,
                gen_bots, req, hst]⟩
          | false =>
            rcases gen_bots_loop_no_victim topo rand p2 p2.timeDate node
                ⟨node.name, false⟩ st hst (List.range topo.bots_per_node) with
              ⟨m, hbm⟩ | hbm
            · exact ⟨m, by simp [Bind.bind, Except.bind, ha, hb,
                gen_amplifiers, hm, gen_bots, hbm]⟩
            · exact ⟨"AttributeError: FlowGen object has no attribute victim_node",
                by simp [Bind.bind, Except.bind, ha, hb, gen_amplifiers, hm,
                  gen_bots, hbm, req, hst]⟩
        | false =>
          exact ⟨"AttributeError: FlowGen object has no attribute victim_node",
            by simp [Bind.bind, Except.bind, ha, hb, gen_amplifiers, hm,
              req, hst]⟩
    | false =>
      cases hb : node.has_bots with
      | true =>
        cases dir with
        | true =>
          exact ⟨"AttributeError: FlowGen object has no attribute victim_node",
            by simp [Bind.bind, Except.bind, ha, hb, gen_bots, req, hst]⟩
        | false =>
          rcases gen_bots_loop_no_victim topo rand p2 p2.timeDate node
              ⟨node.name, false⟩ st hst (List.range topo.bots_per_node) with
            ⟨m, hbm⟩ | hbm
          · exact ⟨m, by simp [Bind.bind, Except.bind, ha, hb, gen_bots, hbm]⟩
          · exact ⟨"AttributeError: FlowGen object has no attribute victim_node",
              by simp [Bind.bind, Except.bind, ha, hb, gen_bots, hbm, req, hst]⟩
      | false =>
        exact ⟨"AttributeError: FlowGen object has no attribute victim_node",
          by simp [Bind.bind, Except.bind, ha, hb, req, hst]⟩

/-- A one-node topology in which no node declares a victim address. -/
def nodeNoV : Node := ⟨"172.25", "N", true, false, none⟩

def topoNoV : Topology := { topoV with nodelist := [nodeNoV], synthetic_interval := 5 }

/-- Witness for C10_missing_victim on the victimless topology topoNoV. -/
theorem C10_missing_victim_witness :
    (initFlowGen topoNoV = Except.ok initSt ∧ initSt.victimNode = none)
    ∧ ∃ msg, rewrite topoNoV rand0 rec0 true nodeNoV true initSt
        = Except.error msg :=
  C10_missing_victim topoNoV (by decide) rand0 rec0 true nodeNoV initSt
    (by decide) (by decide)

/-! ## Claim C5: the synthetic scanning probes -/

/-- The first dotted octet of an address string, read off as a number (how
the claim inspects an emitted address). -/
def firstOctetStr (s : String) : Option Nat :=
  match splitOnChar '.' s with
  | o :: _ => strToNat? o
  | [] => none

theorem randint_bounds (a b : Nat) (rand : Nat → Nat) (st : St) (hab : a ≤ b) :
    a ≤ (randint a b rand st).1 ∧ (randint a b rand st).1 ≤ b := by
  rw [randint]
  have hm := Nat.mod_lt (rand st.randIdx) (y := b + 1 - a) (by omega)
  constructor
  · simp
  · simp
    omega

theorem randOctetLoop_ok (rand : Nat → Nat) :
    ∀ (fuel : Nat) (st : St) (o : Nat) (st1 : St),
      randOctetLoop rand fuel st = Except.ok (o, st1) →
      o ∉ RESERVED_CLASS_A ∧ 1 ≤ o ∧ o ≤ 255 := by
  intro fuel
  induction fuel with
  | zero => intro st o st1 hh; exact Except.noConfusion hh
  | succ f ih =>
    intro st o st1 hh
    rw [randOctetLoop] at hh
    by_cases hc : RESERVED_CLASS_A.contains (randint 1 255 rand st).1
    · rw [if_pos hc] at hh
      exact ih _ _ _ hh
    · rw [if_neg hc] at hh
      injection hh with hh
      have h1 : (randint 1 255 rand st).1 = o := by rw [hh]
      obtain ⟨hlo, hhi⟩ := randint_bounds 1 255 rand st (by omega)
      refine ⟨?_, by omega, by omega⟩
      rw [← h1]
      intro hmem
      exact hc ((contains_reserved_iff _).mpr hmem)

theorem gen_rand_ip_none_ok (rand : Nat → Nat) (st : St) (s : String) (st1 : St)
    (hh : gen_rand_ip rand none st = Except.ok (s, st1)) :
    ∃ o1 o2 o3 o4, s = Nat.repr o1 ++ "." ++ Nat.repr o2 ++ "." ++ Nat.repr o3
      ++ "." ++ Nat.repr o4 ∧ o1 ∉ RESERVED_CLASS_A ∧ 1 ≤ o1 ∧ o1 ≤ 255 := by
  rw [gen_rand_ip] at hh
  cases ho : randOctetLoop rand RAND_FUEL st with
  | error m =>
    rw [ho] at hh
    exact Except.noConfusion hh
  | ok o1p =>
    rw [ho] at hh
    simp only [Bind.bind, Except.bind, pure, Except.pure, Except.ok.injEq,
      Prod.mk.injEq] at hh
    obtain ⟨hmem, hlo, hhi⟩ := randOctetLoop_ok rand RAND_FUEL st o1p.1 o1p.2
      (by rw [ho])
    refine ⟨o1p.1, (randint 1 255 rand o1p.2).1,
      (randint 1 255 rand (randint 1 255 rand o1p.2).2).1,
      (randint 1 255 rand (randint 1 255 rand (randint 1 255 rand o1p.2).2).2).1,
      ?_, hmem, hlo, hhi⟩
    exact hh.1.symm

theorem gen_rand_ip_some_ok (rand : Nat → Nat) (pfx : String) (st : St)
    (s : String) (st1 : St)
    (hh : gen_rand_ip rand (some pfx) st = Except.ok (s, st1)) :
    ∃ q3 q4, s = pfx ++ "." ++ Nat.repr q3 ++ "." ++ Nat.repr q4
      ∧ 1 ≤ q3 ∧ q3 ≤ 255 ∧ 1 ≤ q4 ∧ q4 ≤ 255 := by
  rw [gen_rand_ip] at hh
  simp only [Bind.bind, Except.bind, pure, Except.pure, Except.ok.injEq,
    Prod.mk.injEq] at hh
  obtain ⟨h3lo, h3hi⟩ := randint_bounds 1 255 rand st (by omega)
  obtain ⟨h4lo, h4hi⟩ := randint_bounds 1 255 rand (randint 1 255 rand st).2 (by omega)
  exact ⟨(randint 1 255 rand st).1, (randint 1 255 rand (randint 1 255 rand st).2).1,
    hh.1.symm, h3lo, h3hi, h4lo, h4hi⟩

theorem gen_probes_loop_mem (topo : Topology) (rand : Nat → Nat)
    (parsed : FlowRecord) (startTime : Option Nat) (node : Node) (sink : Sink) :
    ∀ (ids : List Nat) (st : St) (emis : List Emis) (st1 : St),
      gen_probes_loop topo rand parsed startTime node sink ids st
        = Except.ok (emis, st1) →
      ∀ e ∈ emis, e.sink = sink ∧ e.record.proto = "6"
        ∧ e.record.flags = " S      "
        ∧ (∃ o1 o2 o3 o4, e.record.srcIp = Nat.repr o1 ++ "." ++ Nat.repr o2
            ++ "." ++ Nat.repr o3 ++ "." ++ Nat.repr o4
            ∧ o1 ∉ RESERVED_CLASS_A ∧ 1 ≤ o1 ∧ o1 ≤ 255)
        ∧ (∃ q3 q4, e.record.dstIp = node.own_network ++ "." ++ Nat.repr q3
            ++ "." ++ Nat.repr q4 ∧ 1 ≤ q3 ∧ q3 ≤ 255 ∧ 1 ≤ q4 ∧ q4 ≤ 255) := by
  intro ids
  induction ids with
  | nil =>
    intro st emis st1 hh e he
    injection hh with hp
    cases hp
    exact absurd he (List.not_mem_nil e)
  | cons i rest ih =>
    intro st emis st1 hh e he
    simp only [gen_probes_loop] at hh
    cases ht : startTime with
    | none =>
      rw [ht] at hh
      simp only [req, Bind.bind, Except.bind] at hh
      exact Except.noConfusion hh
    | some t =>
      rw [ht] at hh
      cases hsrc : gen_rand_ip rand none st with
      | error m =>
        simp only [req, hsrc, Bind.bind, Except.bind] at hh
        exact Except.noConfusion hh
      | ok srcp =>
        cases hdst : gen_rand_ip rand (some node.own_network) srcp.2 with
        | error m =>
          simp only [req, hsrc, hdst, Bind.bind, Except.bind] at hh
          exact Except.noConfusion hh
        | ok dstp =>
          cases hrest : gen_probes_loop topo rand parsed (some t) node sink
              rest (randint 49152 65535 rand dstp.2).2 with
          | error m =>
            simp only [req, hsrc, hdst, hrest, Bind.bind, Except.bind] at hh
            exact Except.noConfusion hh
          | ok rr =>
            simp only [req, hsrc, hdst, hrest, Bind.bind, Except.bind,
              Except.ok.injEq, Prod.mk.injEq] at hh
            rw [← hh.1] at he
            rcases List.mem_cons.mp he with he | he
            · subst he
              refine ⟨rfl, rfl, rfl, ?_, ?_⟩
              · exact gen_rand_ip_none_ok rand st srcp.1 srcp.2 (by rw [hsrc])
              · exact gen_rand_ip_some_ok rand node.own_network srcp.2
                  dstp.1 dstp.2 (by rw [hdst])
            · exact ih _ rr.1 rr.2 (by rw [ht, hrest]) e he

/-- Claim C5 (amended): every synthetic scanning-probe record is a TCP
record (protocol 6) with SYN-only flags, emitted to the given sink and only
in the inbound direction (outbound emits nothing); its SOURCE address is
fully random with first octet outside the reserved set {0, 10, 127, 172,
255}, while its DESTINATION address is the vantage point's two-octet prefix
followed by two random octets, with NO reserved-set check: its first octet
is whatever the prefix starts with (172 for every shipped vantage point). -/
theorem C5_probe_records (topo : Topology) (rand : Nat → Nat)
    (parsed : FlowRecord) (startTime : Option Nat) (node : Node) (sink : Sink)
    (st : St) (emis : List Emis) (st1 : St)
    (hok : gen_probes topo rand parsed startTime true node sink st
      = Except.ok (emis, st1)) :
    (∀ e ∈ emis, e.sink = sink ∧ e.record.proto = "6"
      ∧ e.record.flags = " S      "
      ∧ (∃ o1 o2 o3 o4, e.record.srcIp = Nat.repr o1 ++ "." ++ Nat.repr o2
          ++ "." ++ Nat.repr o3 ++ "." ++ Nat.repr o4
          ∧ o1 ∉ RESERVED_CLASS_A ∧ 1 ≤ o1 ∧ o1 ≤ 255)
      ∧ (∃ q3 q4, e.record.dstIp = node.own_network ++ "." ++ Nat.repr q3
          ++ "." ++ Nat.repr q4 ∧ 1 ≤ q3 ∧ q3 ≤ 255 ∧ 1 ≤ q4 ∧ q4 ≤ 255))
    ∧ (∀ st2 : St, gen_probes topo rand parsed startTime false node sink st2
        = Except.ok ([], st2)) := by
  constructor
  · exact gen_probes_loop_mem topo rand parsed startTime node sink
      (List.range topo.probes_per_timestep) st emis st1 hok
  · intro st2
    rfl

/-- The probe record gen_probes emits for nodeV from the all-zero tape. -/
def probeRecV : FlowRecord :=
  { rec0 with
    srcIp := "1.1.1.1", dstIp := "172.30.1.1", srcPort := "49152",
    dstPort := "2323", proto := "6", packets := "6", bytes := "384",
    flags := " S      ", sTime := "2024/01/01T00:00:00.015",
    duration := "5.000", eTime := "2024/01/01T00:00:05.015" }

/-- Claim C5 counterexample: the claim requires both probe addresses to have
a first octet outside the reserved set, but the destination is confined to
the vantage point's prefix with no reserved check: for nodeV (prefix
172.30) the emitted probe's destination address starts with octet 172,
which IS in the reserved set. -/
theorem C5_counterexample :
    gen_probes topoV rand0 rec0 (some 1704067200000) true nodeV ⟨"V", true⟩ stV
      = Except.ok ([⟨⟨"V", true⟩, probeRecV⟩], { stV with randIdx := 7 })
    ∧ firstOctetStr probeRecV.dstIp = some 172
    ∧ (172 : Nat) ∈ RESERVED_CLASS_A :=
  ⟨by decide, by decide, by decide⟩

/-- Witness for C5_probe_records at the concrete probe emission of
C5_counterexample. -/
theorem C5_probe_records_witness :
    (∀ e ∈ [(⟨⟨"V", true⟩, probeRecV⟩ : Emis)], e.sink = (⟨"V", true⟩ : Sink)
      ∧ e.record.proto = "6" ∧ e.record.flags = " S      "
      ∧ (∃ o1 o2 o3 o4, e.record.srcIp = Nat.repr o1 ++ "." ++ Nat.repr o2
          ++ "." ++ Nat.repr o3 ++ "." ++ Nat.repr o4
          ∧ o1 ∉ RESERVED_CLASS_A ∧ 1 ≤ o1 ∧ o1 ≤ 255)
      ∧ (∃ q3 q4, e.record.dstIp = nodeV.own_network ++ "." ++ Nat.repr q3
          ++ "." ++ Nat.repr q4 ∧ 1 ≤ q3 ∧ q3 ≤ 255 ∧ 1 ≤ q4 ∧ q4 ≤ 255))
    ∧ (∀ st2 : St, gen_probes topoV rand0 rec0 (some 1704067200000) false nodeV
        ⟨"V", true⟩ st2 = Except.ok ([], st2)) :=
  C5_probe_records topoV rand0 rec0 (some 1704067200000) nodeV ⟨"V", true⟩ stV
    [⟨⟨"V", true⟩, probeRecV⟩] { stV with randIdx := 7 } (by decide)

/-! ## Claim C7: bot source-port derivation -/

/-- The sum of digest bytes 2..10 that get_bot_src_port folds into the
port (lines 298-299). -/
def digestPortSum (digest : List Nat) : Nat :=
  digest.getD 2 0 + digest.getD 3 0 + digest.getD 4 0 + digest.getD 5 0
    + digest.getD 6 0 + digest.getD 7 0 + digest.getD 8 0 + digest.getD 9 0
    + digest.getD 10 0

theorem randint_botPortcount (a b : Nat) (rand : Nat → Nat) (st : St) :
    (randint a b rand st).2.botPortcount = st.botPortcount := rfl

theorem get_bot_src_port_botPortcount (st : St) (d : List Nat) :
    (get_bot_src_port st d).2.botPortcount = st.botPortcount + 1 := rfl

theorem gen_bots_loop_spec (topo : Topology) (rand : Nat → Nat)
    (parsed : FlowRecord) (t : Nat) (node : Node) (sink : Sink) :
    ∀ (ids : List Nat) (st : St) (emis : List Emis) (st1 : St),
      gen_bots_loop topo rand parsed (some t) node sink ids st
        = Except.ok (emis, st1) →
      emis.length = ids.length
      ∧ st1.botPortcount = st.botPortcount + ids.length
      ∧ ∀ k (hk : k < emis.length),
          (emis.get ⟨k, hk⟩).record.srcPort
            = Nat.repr (10000 + ((st.botPortcount + k + digestPortSum
                (md5it (node.own_network ++ Nat.repr (ids.getD k 0) ++ "bot")))
                % 55536)) := by
  intro ids
  induction ids with
  | nil =>
    intro st emis st1 hh
    injection hh with hp
    cases hp
    exact ⟨rfl, rfl, fun k hk => absurd hk (by simp)⟩
  | cons i rest ih =>
    intro st emis st1 hh
    simp only [gen_bots_loop] at hh
    cases hv : st.victimNode with
    | none =>
      simp only [req, hv, Bind.bind, Except.bind] at hh
      exact Except.noConfusion hh
    | some vn =>
      cases hvip : vn.victim_ip with
      | none =>
        simp only [req, hv, hvip, Bind.bind, Except.bind] at hh
        exact Except.noConfusion hh
      | some vip =>
        cases hrest : gen_bots_loop topo rand parsed (some t) node sink rest
            (randint 0 topo.bot_output_bytes_per_flow rand
              (randint 0 topo.bot_output_packets_per_flow rand
                (get_bot_src_port st
                  (md5it (node.own_network ++ Nat.repr i ++ "bot"))).2).2).2 with
        | error m =>
          simp only [req, hv, hvip, hrest, Bind.bind, Except.bind] at hh
          exact Except.noConfusion hh
        | ok rr =>
          simp only [req, hv, hvip, hrest, Bind.bind, Except.bind,
            Except.ok.injEq, Prod.mk.injEq] at hh
          obtain ⟨hemis, hst1⟩ := hh
          obtain ⟨ihl, ihc, ihp⟩ := ih _ rr.1 rr.2 (by rw [hrest])
          simp only [randint_botPortcount, get_bot_src_port_botPortcount] at ihc
          subst hemis
          subst hst1
          refine ⟨?_, ?_, ?_⟩
          · simp [ihl]
          · rw [ihc]
            simp only [List.length_cons]
            omega
          · intro k hk
            cases k with
            | zero =>
              show (get_bot_src_port st
                  (md5it (node.own_network ++ Nat.repr i ++ "bot"))).1 = _
              rw [get_bot_src_port]
              have harith : st.botPortcount
                  + (md5it (node.own_network ++ Nat.repr i ++ "bot")).getD 2 0
                  + (md5it (node.own_network ++ Nat.repr i ++ "bot")).getD 3 0
                  + (md5it (node.own_network ++ Nat.repr i ++ "bot")).getD 4 0
                  + (md5it (node.own_network ++ Nat.repr i ++ "bot")).getD 5 0
                  + (md5it (node.own_network ++ Nat.repr i ++ "bot")).getD 6 0
                  + (md5it (node.own_network ++ Nat.repr i ++ "bot")).getD 7 0
                  + (md5it (node.own_network ++ Nat.repr i ++ "bot")).getD 8 0
                  + (md5it (node.own_network ++ Nat.repr i ++ "bot")).getD 9 0
                  + (md5it (node.own_network ++ Nat.repr i ++ "bot")).getD 10 0
                  = st.botPortcount + 0 + digestPortSum
                      (md5it (node.own_network ++ Nat.repr i ++ "bot")) := by
                rw [digestPortSum]
                omega
              rw [harith]
              rfl
            | succ k =>
              have hk2 : k < rr.1.length := by
                simpa using hk
              have := ihp k hk2
              simp only [randint_botPortcount, get_bot_src_port_botPortcount]
                at this
              show (rr.1.get ⟨k, hk2⟩).record.srcPort = _
              rw [this]
              have harith : st.botPortcount + 1 + k = st.botPortcount + (k + 1) := by
                omega
              rw [harith]
              rfl

theorem gen_victim_amps_node_count (topo : Topology) (rand : Nat → Nat)
    (parsed : FlowRecord) (startTime : Option Nat) (ampnode : Node) :
    ∀ (ids : List Nat) (st : St) (emis : List Emis) (st1 : St),
      gen_victim_amps_node topo rand parsed startTime ampnode ids st
        = Except.ok (emis, st1) →
      st1.botPortcount = st.botPortcount := by
  intro ids
  induction ids with
  | nil =>
    intro st emis st1 hh
    injection hh with hp
    cases hp
    rfl
  | cons i rest ih =>
    intro st emis st1 hh
    simp only [gen_victim_amps_node] at hh
    cases ht : startTime with
    | none =>
      rw [ht] at hh
      simp only [req, Bind.bind, Except.bind] at hh
      exact Except.noConfusion hh
    | some t =>
      rw [ht] at hh
      cases hv : st.victimNode with
      | none =>
        simp only [req, hv, Bind.bind, Except.bind] at hh
        exact Except.noConfusion hh
      | some vn =>
        cases hvip : vn.victim_ip with
        | none =>
          simp only [req, hv, hvip, Bind.bind, Except.bind] at hh
          exact Except.noConfusion hh
        | some vip =>
          cases hrest : gen_victim_amps_node topo rand parsed (some t) ampnode
              rest (randint 0 topo.reflect_output_bytes_per_flow rand
                (randint 0 topo.reflect_output_packets_per_flow rand st).2).2 with
          | error m =>
            simp only [req, hv, hvip, hrest, Bind.bind, Except.bind] at hh
            exact Except.noConfusion hh
          | ok rr =>
            simp only [req, hv, hvip, hrest, Bind.bind, Except.bind,
              Except.ok.injEq, Prod.mk.injEq] at hh
            obtain ⟨hemis, hst1⟩ := hh
            subst hst1
            have hcnt := ih _ rr.1 rr.2 (by rw [ht, hrest])
            simpa [randint_botPortcount] using hcnt

theorem gen_victim_bots_node_count (topo : Topology) (rand : Nat → Nat)
    (parsed : FlowRecord) (startTime : Option Nat) (botnode : Node) :
    ∀ (ids : List Nat) (st : St) (emis : List Emis) (st1 : St),
      gen_victim_bots_node topo rand parsed startTime botnode ids st
        = Except.ok (emis, st1) →
      st1.botPortcount = st.botPortcount + emis.length := by
  intro ids
  induction ids with
  | nil =>
    intro st emis st1 hh
    injection hh with hp
    cases hp
    rfl
  | cons i rest ih =>
    intro st emis st1 hh
    simp only [gen_victim_bots_node] at hh
    cases ht : startTime with
    | none =>
      rw [ht] at hh
      simp only [req, Bind.bind, Except.bind] at hh
      exact Except.noConfusion hh
    | some t =>
      rw [ht] at hh
      cases hv : st.victimNode with
      | none =>
        simp only [req, hv, Bind.bind, Except.bind] at hh
        exact Except.noConfusion hh
      | some vn =>
        cases hvip : vn.victim_ip with
        | none =>
          simp only [req, hv, hvip, Bind.bind, Except.bind] at hh
          exact Except.noConfusion hh
        | some vip =>
          cases hrest : gen_victim_bots_node topo rand parsed (some t) botnode
              rest (randint 0 topo.bot_output_bytes_per_flow rand
                (randint 0 topo.bot_output_packets_per_flow rand
                  (get_bot_src_port st
                    (md5it (botnode.own_network ++ Nat.repr i ++ "bot"))).2).2).2 with
          | error m =>
            simp only [req, hv, hvip, hrest, Bind.bind, Except.bind] at hh
            exact Except.noConfusion hh
          | ok rr =>
            simp only [req, hv, hvip, hrest, Bind.bind, Except.bind,
              Except.ok.injEq, Prod.mk.injEq] at hh
            obtain ⟨hemis, hst1⟩ := hh
            subst hemis
            subst hst1
            have hcnt := ih _ rr.1 rr.2 (by rw [ht, hrest])
            simp only [randint_botPortcount, get_bot_src_port_botPortcount] at hcnt
            simp only [List.length_cons, hcnt]
            omega

theorem gen_victim_amps_count (topo : Topology) (rand : Nat → Nat)
    (parsed : FlowRecord) (startTime : Option Nat) :
    ∀ (nodes : List Node) (st : St) (emis : List Emis) (st1 : St),
      gen_victim_amps topo rand parsed startTime nodes st
        = Except.ok (emis, st1) →
      st1.botPortcount = st.botPortcount := by
  intro nodes
  induction nodes with
  | nil =>
    intro st emis st1 hh
    injection hh with hp
    cases hp
    rfl
  | cons n rest ih =>
    intro st emis st1 hh
    simp only [gen_victim_amps] at hh
    cases ha : n.has_amplifiers with
    | false =>
      rw [ha] at hh
      exact ih st emis st1 (by simpa using hh)
    | true =>
      rw [ha] at hh
      cases hA : gen_victim_amps_node topo rand parsed startTime n
          (List.range topo.amplifiers_per_node) st with
      | error m =>
        simp only [hA, Bind.bind, Except.bind] at hh
        exact Except.noConfusion hh
      | ok a =>
        cases hR : gen_victim_amps topo rand parsed startTime rest a.2 with
        | error m =>
          simp only [hA, hR, Bind.bind, Except.bind] at hh
          exact Except.noConfusion hh
        | ok b =>
          simp only [hA, hR, Bind.bind, Except.bind, if_true, Except.ok.injEq,
            Prod.mk.injEq] at hh
          have h1 := gen_victim_amps_node_count topo rand parsed startTime n
            _ st a.1 a.2 (by rw [hA])
          have h2 := ih a.2 b.1 b.2 (by rw [hR])
          rw [← hh.2, h2, h1]

theorem gen_victim_bots_count (topo : Topology) (rand : Nat → Nat)
    (parsed : FlowRecord) (startTime : Option Nat) :
    ∀ (nodes : List Node) (st : St) (emis : List Emis) (st1 : St),
      gen_victim_bots topo rand parsed startTime nodes st
        = Except.ok (emis, st1) →
      st1.botPortcount = st.botPortcount + emis.length := by
  intro nodes
  induction nodes with
  | nil =>
    intro st emis st1 hh
    injection hh with hp
    cases hp
    rfl
  | cons n rest ih =>
    intro st emis st1 hh
    simp only [gen_victim_bots] at hh
    cases hb : n.has_bots with
    | false =>
      rw [hb] at hh
      exact ih st emis st1 (by simpa using hh)
    | true =>
      rw [hb] at hh
      cases hB : gen_victim_bots_node topo rand parsed startTime n
          (List.range topo.bots_per_node) st with
      | error m =>
        simp only [hB, Bind.bind, Except.bind] at hh
        exact Except.noConfusion hh
      | ok a =>
        cases hR : gen_victim_bots topo rand parsed startTime rest a.2 with
        | error m =>
          simp only [hB, hR, Bind.bind, Except.bind] at hh
          exact Except.noConfusion hh
        | ok b =>
          simp only [hB, hR, Bind.bind, Except.bind, if_true, Except.ok.injEq,
            Prod.mk.injEq] at hh
          have h1 := gen_victim_bots_node_count topo rand parsed startTime n
            _ st a.1 a.2 (by rw [hB])
          have h2 := ih a.2 b.1 b.2 (by rw [hR])
          rw [← hh.1, ← hh.2, h2, h1]
          simp
          omega

/-- Claim C7: the bot source port emitted for a bot with digest d is exactly
10000 + ((counter + d[2]+...+d[10]) mod 55536); the counter starts at 0 at
the beginning of each direction pass (run resets it before the inbound and
before the outbound pass) and increments by exactly 1 on every bot-record
emission, including the emissions of the victim-aggregation generator
(whose state delta equals the number of bot records it emits, its amplifier
records leaving the counter untouched). -/
theorem C7_bot_source_ports :
    (∀ (st : St) (digest : List Nat),
      get_bot_src_port st digest
        = (Nat.repr (10000 + ((st.botPortcount + digestPortSum digest) % 55536)),
           { st with botPortcount := st.botPortcount + 1 }))
    ∧ (∀ (topo : Topology) (rand : Nat → Nat) (parsed : FlowRecord) (t : Nat)
        (node : Node) (sink : Sink) (st : St) (emis : List Emis) (st1 : St),
        gen_bots topo rand parsed (some t) false node sink st
          = Except.ok (emis, st1) →
        emis.length = topo.bots_per_node
        ∧ st1.botPortcount = st.botPortcount + topo.bots_per_node
        ∧ ∀ k (hk : k < emis.length),
            (emis.get ⟨k, hk⟩).record.srcPort
              = Nat.repr (10000 + ((st.botPortcount + k + digestPortSum
                  (md5it (node.own_network ++ Nat.repr k ++ "bot"))) % 55536)))
    ∧ (∀ (topo : Topology) (rand : Nat → Nat) (parsed : FlowRecord)
        (startTime : Option Nat) (st : St) (emis : List Emis) (st1 : St),
        gen_victim topo rand parsed startTime true st = Except.ok (emis, st1) →
        ∃ aemis bemis, emis = aemis ++ bemis
          ∧ st1.botPortcount = st.botPortcount + bemis.length)
    ∧ (∀ (topo : Topology) (rand : Nat → Nat)
        (inboundLines outboundLines : List String) (st : St),
        run topo rand inboundLines outboundLines st
          = Except.bind (foreach_noise topo rand inboundLines true
              { st with botPortcount := 0 })
            (fun a => Except.bind (foreach_noise topo rand outboundLines false
              { a.2 with botPortcount := 0 })
              (fun b => Except.ok (a.1 ++ b.1, b.2)))) := by
  refine ⟨?_, ?_, ?_, ?_⟩
  · intro st digest
    simp only [get_bot_src_port]
    have harith : st.botPortcount + digest.getD 2 0 + digest.getD 3 0
        + digest.getD 4 0 + digest.getD 5 0 + digest.getD 6 0 + digest.getD 7 0
        + digest.getD 8 0 + digest.getD 9 0 + digest.getD 10 0
        = st.botPortcount + digestPortSum digest := by
      rw [digestPortSum]
      omega
    rw [harith]
  · intro topo rand parsed t node sink st emis st1 hok
    have hok2 : gen_bots_loop topo rand parsed (some t) node sink
        (List.range topo.bots_per_node) st = Except.ok (emis, st1) := hok
    obtain ⟨hl, hc, hp⟩ := gen_bots_loop_spec topo rand parsed t node sink
      _ st emis st1 hok2
    refine ⟨by simpa using hl, by simpa using hc, ?_⟩
    intro k hk
    have hkM : k < topo.bots_per_node := by
      rw [hl] at hk
      simpa using hk
    have hform := hp k hk
    have hg : (List.range topo.bots_per_node).getD k 0 = k := by
      rw [List.getD_eq_getElem?_getD, List.getElem?_range hkM]
      rfl
    rw [hg] at hform
    exact hform
  · intro topo rand parsed startTime st emis st1 hok
    have hok2 : (do
        let a ← gen_victim_amps topo rand parsed startTime topo.nodelist st
        let b ← gen_victim_bots topo rand parsed startTime topo.nodelist a.2
        Except.ok (a.1 ++ b.1, b.2) : Except String (List Emis × St))
        = Except.ok (emis, st1) := hok
    cases hA : gen_victim_amps topo rand parsed startTime topo.nodelist st with
    | error m =>
      simp only [hA, Bind.bind, Except.bind] at hok2
      exact Except.noConfusion hok2
    | ok a =>
      cases hB : gen_victim_bots topo rand parsed startTime topo.nodelist a.2 with
      | error m =>
        simp only [hA, hB, Bind.bind, Except.bind] at hok2
        exact Except.noConfusion hok2
      | ok b =>
        simp only [hA, hB, Bind.bind, Except.bind, Except.ok.injEq,
          Prod.mk.injEq] at hok2
        have h1 := gen_victim_amps_count topo rand parsed startTime
          topo.nodelist st a.1 a.2 (by rw [hA])
        have h2 := gen_victim_bots_count topo rand parsed startTime
          topo.nodelist a.2 b.1 b.2 (by rw [hB])
        refine ⟨a.1, b.1, ?_, ?_⟩
        · rw [← hok2.1]
        · rw [← hok2.2, h2, h1]
  · intro topo rand inboundLines outboundLines st
    rfl

/-- A two-node topology: the victim nodeV plus a bot network with two bots. -/
def nodeBot : Node := ⟨"172.31", "B", false, true, none⟩

def topoB : Topology := { topoV with nodelist := [nodeV, nodeBot], bots_per_node := 2 }

/-- The two bot flood records gen_bots emits for nodeBot from the all-zero
tape (outbound pass, base record rec0). -/
def botRec1 : FlowRecord :=
  { rec0 with
    srcIp := "172.31.111.170", dstIp := "172.30.9.9", srcPort := "10675",
    dstPort := "53", proto := "17", packets := "20", bytes := "6000",
    flags := "        ", sTime := "2024/01/01T00:00:00.010",
    duration := "55.000", eTime := "2024/01/01T00:00:55.010" }

def botRec2 : FlowRecord :=
  { rec0 with
    srcIp := "172.31.75.156", dstIp := "172.30.9.9", srcPort := "11058",
    dstPort := "53", proto := "17", packets := "20", bytes := "6000",
    flags := "        ", sTime := "2024/01/01T00:00:00.020",
    duration := "55.000", eTime := "2024/01/01T00:00:55.020" }

def stB1 : St := ⟨2, 4, some nodeV⟩

/-- Witness for C7_bot_source_ports: the two-bot node of topoB, outbound,
and the victim aggregation of the same topology. -/
theorem C7_bot_source_ports_witness :
    (([⟨⟨"B", false⟩, botRec1⟩, ⟨⟨"B", false⟩, botRec2⟩] : List Emis).length
        = topoB.bots_per_node
      ∧ stB1.botPortcount = stV.botPortcount + topoB.bots_per_node
      ∧ ∀ k (hk : k < ([⟨⟨"B", false⟩, botRec1⟩, ⟨⟨"B", false⟩, botRec2⟩]
          : List Emis).length),
          (([⟨⟨"B", false⟩, botRec1⟩, ⟨⟨"B", false⟩, botRec2⟩]
            : List Emis).get ⟨k, hk⟩).record.srcPort
            = Nat.repr (10000 + ((stV.botPortcount + k + digestPortSum
                (md5it (nodeBot.own_network ++ Nat.repr k ++ "bot"))) % 55536)))
    ∧ (∃ aemis bemis,
        ([⟨⟨"V", true⟩, botRec1⟩, ⟨⟨"V", true⟩, botRec2⟩] : List Emis)
          = aemis ++ bemis
        ∧ stB1.botPortcount = stV.botPortcount + bemis.length) :=
  ⟨C7_bot_source_ports.2.1 topoB rand0 rec0 1704067200000 nodeBot ⟨"B", false⟩
      stV [⟨⟨"B", false⟩, botRec1⟩, ⟨⟨"B", false⟩, botRec2⟩] stB1 (by decide),
   C7_bot_source_ports.2.2.1 topoB rand0 rec0 (some 1704067200000) stV
      [⟨⟨"V", true⟩, botRec1⟩, ⟨⟨"V", true⟩, botRec2⟩] stB1 (by decide)⟩

/-! ## Claim C8: amplifier and bot addresses across views -/

/-- The amplifier address own_network.digest[0].digest[1] of
md5(own_network ++ str(index)) -- computed identically at lines 164-165
(per-node generator) and 245-246 (victim aggregation). -/
def ampAddr (node : Node) (i : Nat) : String :=
  node.own_network ++ "."
    ++ Nat.repr ((md5it (node.own_network ++ Nat.repr i)).getD 0 0) ++ "."
    ++ Nat.repr ((md5it (node.own_network ++ Nat.repr i)).getD 1 0)

/-- The bot address of md5(own_network ++ str(index) ++ "bot") -- computed
identically at lines 209-210 and 270-271. -/
def botAddr (node : Node) (i : Nat) : String :=
  node.own_network ++ "."
    ++ Nat.repr ((md5it (node.own_network ++ Nat.repr i ++ "bot")).getD 0 0) ++ "."
    ++ Nat.repr ((md5it (node.own_network ++ Nat.repr i ++ "bot")).getD 1 0)

theorem gen_amplifiers_loop_addr_in (topo : Topology) (rand : Nat → Nat)
    (parsed : FlowRecord) (t : Nat) (node : Node) (sink : Sink) :
    ∀ (ids : List Nat) (st : St) (emis : List Emis) (st1 : St),
      gen_amplifiers_loop topo rand parsed (some t) true node sink ids st
        = Except.ok (emis, st1) →
      emis.length = ids.length
      ∧ ∀ k (hk : k < emis.length),
        (emis.get ⟨k, hk⟩).record.dstIp = ampAddr node (ids.getD k 0) := by
  intro ids
  induction ids with
  | nil =>
    intro st emis st1 hh
    injection hh with hp
    cases hp
    exact ⟨rfl, fun k hk => absurd hk (by simp)⟩
  | cons i rest ih =>
    intro st emis st1 hh
    simp only [gen_amplifiers_loop] at hh
    cases hv : st.victimNode with
    | none =>
      simp only [req, hv, if_true, Bind.bind, Except.bind] at hh
      exact Except.noConfusion hh
    | some vn =>
      cases hvip : vn.victim_ip with
      | none =>
        simp only [req, hv, hvip, if_true, Bind.bind, Except.bind] at hh
        exact Except.noConfusion hh
      | some vip =>
        cases hrest : gen_amplifiers_loop topo rand parsed (some t) true node sink
            rest (randint 0 topo.reflect_input_bytes_per_flow rand
              (randint 0 topo.reflect_input_packets_per_flow rand st).2).2 with
        | error m =>
          simp only [req, hv, hvip, hrest, if_true, Bind.bind, Except.bind] at hh
          exact Except.noConfusion hh
        | ok rr =>
          simp only [req, hv, hvip, hrest, if_true, Bind.bind, Except.bind,
            Except.ok.injEq, Prod.mk.injEq] at hh
          refine ⟨?_, ?_⟩
          · rw [← hh.1]
            have hl := (ih _ rr.1 rr.2 (by rw [hrest])).1
            simp [hl]
          · rw [← hh.1]
            intro k hk
            cases k with
            | zero => rfl
            | succ k =>
              have hk2 : k < rr.1.length := by simpa using hk
              exact (ih _ rr.1 rr.2 (by rw [hrest])).2 k hk2

theorem gen_amplifiers_loop_addr_out (topo : Topology) (rand : Nat → Nat)
    (parsed : FlowRecord) (t : Nat) (node : Node) (sink : Sink) :
    ∀ (ids : List Nat) (st : St) (emis : List Emis) (st1 : St),
      gen_amplifiers_loop topo rand parsed (some t) false node sink ids st
        = Except.ok (emis, st1) →
      emis.length = ids.length
      ∧ ∀ k (hk : k < emis.length),
        (emis.get ⟨k, hk⟩).record.srcIp = ampAddr node (ids.getD k 0) := by
  intro ids
  induction ids with
  | nil =>
    intro st emis st1 hh
    injection hh with hp
    cases hp
    exact ⟨rfl, fun k hk => absurd hk (by simp)⟩
  | cons i rest ih =>
    intro st emis st1 hh
    simp only [gen_amplifiers_loop] at hh
    cases hv : st.victimNode with
    | none =>
      simp only [req, hv, Bool.false_eq_true, if_false, Bind.bind, Except.bind] at hh
      exact Except.noConfusion hh
    | some vn =>
      cases hvip : vn.victim_ip with
      | none =>
        simp only [req, hv, hvip, Bool.false_eq_true, if_false, Bind.bind, Except.bind] at hh
        exact Except.noConfusion hh
      | some vip =>
        cases hrest : gen_amplifiers_loop topo rand parsed (some t) false node sink
            rest (randint 0 topo.reflect_output_bytes_per_flow rand
              (randint 0 topo.reflect_output_packets_per_flow rand st).2).2 with
        | error m =>
          simp only [req, hv, hvip, hrest, Bool.false_eq_true, if_false, Bind.bind, Except.bind] at hh
          exact Except.noConfusion hh
        | ok rr =>
          simp only [req, hv, hvip, hrest, Bool.false_eq_true, if_false, Bind.bind, Except.bind,
            Except.ok.injEq, Prod.mk.injEq] at hh
          refine ⟨?_, ?_⟩
          · rw [← hh.1]
            have hl := (ih _ rr.1 rr.2 (by rw [hrest])).1
            simp [hl]
          · rw [← hh.1]
            intro k hk
            cases k with
            | zero => rfl
            | succ k =>
              have hk2 : k < rr.1.length := by simpa using hk
              exact (ih _ rr.1 rr.2 (by rw [hrest])).2 k hk2

theorem gen_victim_amps_node_addr (topo : Topology) (rand : Nat → Nat)
    (parsed : FlowRecord) (t : Nat) (ampnode : Node) :
    ∀ (ids : List Nat) (st : St) (emis : List Emis) (st1 : St),
      gen_victim_amps_node topo rand parsed (some t) ampnode ids st
        = Except.ok (emis, st1) →
      emis.length = ids.length
      ∧ ∀ k (hk : k < emis.length),
        (emis.get ⟨k, hk⟩).record.srcIp = ampAddr ampnode (ids.getD k 0) := by
  intro ids
  induction ids with
  | nil =>
    intro st emis st1 hh
    injection hh with hp
    cases hp
    exact ⟨rfl, fun k hk => absurd hk (by simp)⟩
  | cons i rest ih =>
    intro st emis st1 hh
    simp only [gen_victim_amps_node] at hh
    cases hv : st.victimNode with
    | none =>
      simp only [req, hv, Bind.bind, Except.bind] at hh
      exact Except.noConfusion hh
    | some vn =>
      cases hvip : vn.victim_ip with
      | none =>
        simp only [req, hv, hvip, Bind.bind, Except.bind] at hh
        exact Except.noConfusion hh
      | some vip =>
        cases hrest : gen_victim_amps_node topo rand parsed (some t) ampnode
            rest (randint 0 topo.reflect_output_bytes_per_flow rand
              (randint 0 topo.reflect_output_packets_per_flow rand st).2).2 with
        | error m =>
          simp only [req, hv, hvip, hrest, Bind.bind, Except.bind] at hh
          exact Except.noConfusion hh
        | ok rr =>
          simp only [req, hv, hvip, hrest, Bind.bind, Except.bind,
            Except.ok.injEq, Prod.mk.injEq] at hh
          refine ⟨?_, ?_⟩
          · rw [← hh.1]
            have hl := (ih _ rr.1 rr.2 (by rw [hrest])).1
            simp [hl]
          · rw [← hh.1]
            intro k hk
            cases k with
            | zero => rfl
            | succ k =>
              have hk2 : k < rr.1.length := by simpa using hk
              exact (ih _ rr.1 rr.2 (by rw [hrest])).2 k hk2

theorem gen_bots_loop_addr (topo : Topology) (rand : Nat → Nat)
    (parsed : FlowRecord) (t : Nat) (node : Node) (sink : Sink) :
    ∀ (ids : List Nat) (st : St) (emis : List Emis) (st1 : St),
      gen_bots_loop topo rand parsed (some t) node sink ids st
        = Except.ok (emis, st1) →
      emis.length = ids.length
      ∧ ∀ k (hk : k < emis.length),
        (emis.get ⟨k, hk⟩).record.srcIp = botAddr node (ids.getD k 0) := by
  intro ids
  induction ids with
  | nil =>
    intro st emis st1 hh
    injection hh with hp
    cases hp
    exact ⟨rfl, fun k hk => absurd hk (by simp)⟩
  | cons i rest ih =>
    intro st emis st1 hh
    simp only [gen_bots_loop] at hh
    cases hv : st.victimNode with
    | none =>
      simp only [req, hv, Bind.bind, Except.bind] at hh
      exact Except.noConfusion hh
    | some vn =>
      cases hvip : vn.victim_ip with
      | none =>
        simp only [req, hv, hvip, Bind.bind, Except.bind] at hh
        exact Except.noConfusion hh
      | some vip =>
        cases hrest : gen_bots_loop topo rand parsed (some t) node sink
            rest (randint 0 topo.bot_output_bytes_per_flow rand
              (randint 0 topo.bot_output_packets_per_flow rand
                (get_bot_src_port st
                  (md5it (node.own_network ++ Nat.repr i ++ "bot"))).2).2).2 with
        | error m =>
          simp only [req, hv, hvip, hrest, Bind.bind, Except.bind] at hh
          exact Except.noConfusion hh
        | ok rr =>
          simp only [req, hv, hvip, hrest, Bind.bind, Except.bind,
            Except.ok.injEq, Prod.mk.injEq] at hh
          refine ⟨?_, ?_⟩
          · rw [← hh.1]
            have hl := (ih _ rr.1 rr.2 (by rw [hrest])).1
            simp [hl]
          · rw [← hh.1]
            intro k hk
            cases k with
            | zero => rfl
            | succ k =>
              have hk2 : k < rr.1.length := by simpa using hk
              exact (ih _ rr.1 rr.2 (by rw [hrest])).2 k hk2

theorem gen_victim_bots_node_addr (topo : Topology) (rand : Nat → Nat)
    (parsed : FlowRecord) (t : Nat) (botnode : Node) :
    ∀ (ids : List Nat) (st : St) (emis : List Emis) (st1 : St),
      gen_victim_bots_node topo rand parsed (some t) botnode ids st
        = Except.ok (emis, st1) →
      emis.length = ids.length
      ∧ ∀ k (hk : k < emis.length),
        (emis.get ⟨k, hk⟩).record.srcIp = botAddr botnode (ids.getD k 0) := by
  intro ids
  induction ids with
  | nil =>
    intro st emis st1 hh
    injection hh with hp
    cases hp
    exact ⟨rfl, fun k hk => absurd hk (by simp)⟩
  | cons i rest ih =>
    intro st emis st1 hh
    simp only [gen_victim_bots_node] at hh
    cases hv : st.victimNode with
    | none =>
      simp only [req, hv, Bind.bind, Except.bind] at hh
      exact Except.noConfusion hh
    | some vn =>
      cases hvip : vn.victim_ip with
      | none =>
        simp only [req, hv, hvip, Bind.bind, Except.bind] at hh
        exact Except.noConfusion hh
      | some vip =>
        cases hrest : gen_victim_bots_node topo rand parsed (some t) botnode
            rest (randint 0 topo.bot_output_bytes_per_flow rand
              (randint 0 topo.bot_output_packets_per_flow rand
                (get_bot_src_port st
                  (md5it (botnode.own_network ++ Nat.repr i ++ "bot"))).2).2).2 with
        | error m =>
          simp only [req, hv, hvip, hrest, Bind.bind, Except.bind] at hh
          exact Except.noConfusion hh
        | ok rr =>
          simp only [req, hv, hvip, hrest, Bind.bind, Except.bind,
            Except.ok.injEq, Prod.mk.injEq] at hh
          refine ⟨?_, ?_⟩
          · rw [← hh.1]
            have hl := (ih _ rr.1 rr.2 (by rw [hrest])).1
            simp [hl]
          · rw [← hh.1]
            intro k hk
            cases k with
            | zero => rfl
            | succ k =>
              have hk2 : k < rr.1.length := by simpa using hk
              exact (ih _ rr.1 rr.2 (by rw [hrest])).2 k hk2

/-- Claim C8: for every vantage point with amplifiers and every amplifier
index k, the amplifier address used by the per-node amplifier generator
(the destination of its inbound records, the source of its outbound
records -- independent of direction) and the source address of the
victim-aggregation generator's record for the same (node, k) are all the
same prefix.digest[0].digest[1] of md5(prefix ++ str(k)); analogously the
per-node bot generator and the victim aggregation use the same bot address
of md5(prefix ++ str(k) ++ "bot"). -/
theorem C8_cross_view_addresses :
    (∀ (topo : Topology) (rand : Nat → Nat) (parsed : FlowRecord) (t : Nat)
        (node : Node) (sink : Sink) (st : St) (emis : List Emis) (st1 : St),
      gen_amplifiers topo rand parsed (some t) true node sink st
        = Except.ok (emis, st1) →
      ∀ k (hk : k < emis.length),
        (emis.get ⟨k, hk⟩).record.dstIp = ampAddr node k)
    ∧ (∀ (topo : Topology) (rand : Nat → Nat) (parsed : FlowRecord) (t : Nat)
        (node : Node) (sink : Sink) (st : St) (emis : List Emis) (st1 : St),
      gen_amplifiers topo rand parsed (some t) false node sink st
        = Except.ok (emis, st1) →
      ∀ k (hk : k < emis.length),
        (emis.get ⟨k, hk⟩).record.srcIp = ampAddr node k)
    ∧ (∀ (topo : Topology) (rand : Nat → Nat) (parsed : FlowRecord) (t : Nat)
        (node : Node) (st : St) (emis : List Emis) (st1 : St),
      gen_victim_amps_node topo rand parsed (some t) node
          (List.range topo.amplifiers_per_node) st = Except.ok (emis, st1) →
      ∀ k (hk : k < emis.length),
        (emis.get ⟨k, hk⟩).record.srcIp = ampAddr node k)
    ∧ (∀ (topo : Topology) (rand : Nat → Nat) (parsed : FlowRecord) (t : Nat)
        (node : Node) (sink : Sink) (st : St) (emis : List Emis) (st1 : St),
      gen_bots topo rand parsed (some t) false node sink st
        = Except.ok (emis, st1) →
      ∀ k (hk : k < emis.length),
        (emis.get ⟨k, hk⟩).record.srcIp = botAddr node k)
    ∧ (∀ (topo : Topology) (rand : Nat → Nat) (parsed : FlowRecord) (t : Nat)
        (node : Node) (st : St) (emis : List Emis) (st1 : St),
      gen_victim_bots_node topo rand parsed (some t) node
          (List.range topo.bots_per_node) st = Except.ok (emis, st1) →
      ∀ k (hk : k < emis.length),
        (emis.get ⟨k, hk⟩).record.srcIp = botAddr node k) := by
  refine ⟨?_, ?_, ?_, ?_, ?_⟩
  · intro topo rand parsed t node sink st emis st1 hok k hk
    obtain ⟨hlen, haddr⟩ := gen_amplifiers_loop_addr_in topo rand parsed t node
      sink (List.range topo.amplifiers_per_node) st emis st1 hok
    have hkM : k < topo.amplifiers_per_node := by
      rw [hlen] at hk
      simpa using hk
    have hg : (List.range topo.amplifiers_per_node).getD k 0 = k := by
      rw [List.getD_eq_getElem?_getD, List.getElem?_range hkM]
      rfl
    rw [haddr k hk, hg]
  · intro topo rand parsed t node sink st emis st1 hok k hk
    obtain ⟨hlen, haddr⟩ := gen_amplifiers_loop_addr_out topo rand parsed t node
      sink (List.range topo.amplifiers_per_node) st emis st1 hok
    have hkM : k < topo.amplifiers_per_node := by
      rw [hlen] at hk
      simpa using hk
    have hg : (List.range topo.amplifiers_per_node).getD k 0 = k := by
      rw [List.getD_eq_getElem?_getD, List.getElem?_range hkM]
      rfl
    rw [haddr k hk, hg]
  · intro topo rand parsed t node st emis st1 hok k hk
    obtain ⟨hlen, haddr⟩ := gen_victim_amps_node_addr topo rand parsed t node
      (List.range topo.amplifiers_per_node) st emis st1 hok
    have hkM : k < topo.amplifiers_per_node := by
      rw [hlen] at hk
      simpa using hk
    have hg : (List.range topo.amplifiers_per_node).getD k 0 = k := by
      rw [List.getD_eq_getElem?_getD, List.getElem?_range hkM]
      rfl
    rw [haddr k hk, hg]
  · intro topo rand parsed t node sink st emis st1 hok k hk
    obtain ⟨hlen, haddr⟩ := gen_bots_loop_addr topo rand parsed t node
      sink (List.range topo.bots_per_node) st emis st1 hok
    have hkM : k < topo.bots_per_node := by
      rw [hlen] at hk
      simpa using hk
    have hg : (List.range topo.bots_per_node).getD k 0 = k := by
      rw [List.getD_eq_getElem?_getD, List.getElem?_range hkM]
      rfl
    rw [haddr k hk, hg]
  · intro topo rand parsed t node st emis st1 hok k hk
    obtain ⟨hlen, haddr⟩ := gen_victim_bots_node_addr topo rand parsed t node
      (List.range topo.bots_per_node) st emis st1 hok
    have hkM : k < topo.bots_per_node := by
      rw [hlen] at hk
      simpa using hk
    have hg : (List.range topo.bots_per_node).getD k 0 = k := by
      rw [List.getD_eq_getElem?_getD, List.getElem?_range hkM]
      rfl
    rw [haddr k hk, hg]

/-- A topology with one amplifier node (one amplifier) plus the victim. -/
def nodeAmp : Node := ⟨"172.32", "C", true, false, none⟩

def topoAmp : Topology := { topoV with nodelist := [nodeV, nodeAmp] }

/-- The amplifier records gen_amplifiers emits for nodeAmp from the
all-zero tape, inbound and outbound. -/
def ampRecIn : FlowRecord :=
  { rec0 with
    srcIp := "172.30.9.9", dstIp := "172.32.137.150", srcPort := "80",
    dstPort := "123", proto := "17", packets := "1", bytes := "200",
    flags := "        ", sTime := "2024/01/01T00:00:00.010",
    duration := "55.000", eTime := "2024/01/01T00:00:55.010" }

def ampRecOut : FlowRecord :=
  { ampRecIn with
    srcIp := "172.32.137.150", dstIp := "172.30.9.9", srcPort := "123",
    dstPort := "80", packets := "300", bytes := "200000" }

def stA1 : St := ⟨0, 2, some nodeV⟩

/-- Witness for C8_cross_view_addresses: nodeAmp's single amplifier seen
inbound, outbound and from the victim aggregation (all 172.32.137.150),
and nodeBot's two bots seen outbound and from the victim aggregation. -/
theorem C8_cross_view_addresses_witness :
    (∀ k (hk : k < ([⟨⟨"C", true⟩, ampRecIn⟩] : List Emis).length),
      (([⟨⟨"C", true⟩, ampRecIn⟩] : List Emis).get ⟨k, hk⟩).record.dstIp
        = ampAddr nodeAmp k)
    ∧ (∀ k (hk : k < ([⟨⟨"C", false⟩, ampRecOut⟩] : List Emis).length),
      (([⟨⟨"C", false⟩, ampRecOut⟩] : List Emis).get ⟨k, hk⟩).record.srcIp
        = ampAddr nodeAmp k)
    ∧ (∀ k (hk : k < ([⟨⟨"V", true⟩, ampRecOut⟩] : List Emis).length),
      (([⟨⟨"V", true⟩, ampRecOut⟩] : List Emis).get ⟨k, hk⟩).record.srcIp
        = ampAddr nodeAmp k)
    ∧ (∀ k (hk : k < ([⟨⟨"B", false⟩, botRec1⟩, ⟨⟨"B", false⟩, botRec2⟩]
        : List Emis).length),
      (([⟨⟨"B", false⟩, botRec1⟩, ⟨⟨"B", false⟩, botRec2⟩]
        : List Emis).get ⟨k, hk⟩).record.srcIp = botAddr nodeBot k)
    ∧ (∀ k (hk : k < ([⟨⟨"V", true⟩, botRec1⟩, ⟨⟨"V", true⟩, botRec2⟩]
        : List Emis).length),
      (([⟨⟨"V", true⟩, botRec1⟩, ⟨⟨"V", true⟩, botRec2⟩]
        : List Emis).get ⟨k, hk⟩).record.srcIp = botAddr nodeBot k) :=
  ⟨C8_cross_view_addresses.1 topoAmp rand0 rec0 1704067200000 nodeAmp
      ⟨"C", true⟩ stV [⟨⟨"C", true⟩, ampRecIn⟩] stA1 (by decide),
   C8_cross_view_addresses.2.1 topoAmp rand0 rec0 1704067200000 nodeAmp
      ⟨"C", false⟩ stV [⟨⟨"C", false⟩, ampRecOut⟩] stA1 (by decide),
   C8_cross_view_addresses.2.2.1 topoAmp rand0 rec0 1704067200000 nodeAmp
      stV [⟨⟨"V", true⟩, ampRecOut⟩] stA1 (by decide),
   C8_cross_view_addresses.2.2.2.1 topoB rand0 rec0 1704067200000 nodeBot
      ⟨"B", false⟩ stV [⟨⟨"B", false⟩, botRec1⟩, ⟨⟨"B", false⟩, botRec2⟩]
      stB1 (by decide),
   C8_cross_view_addresses.2.2.2.2 topoB rand0 rec0 1704067200000 nodeBot
      stV [⟨⟨"V", true⟩, botRec1⟩, ⟨⟨"V", true⟩, botRec2⟩] stB1 (by decide)⟩
/-! ## Claim C9: the timing invariant -/

/-- The timing relation every synthetic generator establishes: the record's
serialized start time renders a millisecond instant s, its serialized end
time renders s plus exactly the duration written to the duration field. -/
def TimedBy (durSeconds : Nat) (r : FlowRecord) : Prop :=
  ∃ s, r.sTime = fmtTime s ∧ r.eTime = fmtTime (s + 1000 * durSeconds)
    ∧ r.duration = fmtDur durSeconds

theorem gen_amplifiers_loop_timed_in (topo : Topology) (rand : Nat → Nat)
    (parsed : FlowRecord) (t : Nat) (node : Node) (sink : Sink) :
    ∀ (ids : List Nat) (st : St) (emis : List Emis) (st1 : St),
      gen_amplifiers_loop topo rand parsed (some t) true node sink ids st
        = Except.ok (emis, st1) →
      ∀ e ∈ emis, TimedBy topo.flow_duration e.record := by
  intro ids
  induction ids with
  | nil =>
    intro st emis st1 hh e he
    injection hh with hp
    cases hp
    exact absurd he (List.not_mem_nil e)
  | cons i rest ih =>
    intro st emis st1 hh e he
    simp only [gen_amplifiers_loop] at hh
    cases hv : st.victimNode with
    | none =>
      simp only [req, hv, if_true, Bind.bind, Except.bind] at hh
      exact Except.noConfusion hh
    | some vn =>
      cases hvip : vn.victim_ip with
      | none =>
        simp only [req, hv, hvip, if_true, Bind.bind, Except.bind] at hh
        exact Except.noConfusion hh
      | some vip =>
        cases hrest : gen_amplifiers_loop topo rand parsed (some t) true node sink
            rest (randint 0 topo.reflect_input_bytes_per_flow rand
              (randint 0 topo.reflect_input_packets_per_flow rand st).2).2 with
        | error m =>
          simp only [req, hv, hvip, hrest, if_true, Bind.bind, Except.bind] at hh
          exact Except.noConfusion hh
        | ok rr =>
          simp only [req, hv, hvip, hrest, if_true, Bind.bind, Except.bind,
            Except.ok.injEq, Prod.mk.injEq] at hh
          rw [← hh.1] at he
          rcases List.mem_cons.mp he with he | he
          · subst he
            exact ⟨t + 10 * (1 + i), rfl, rfl, rfl⟩
          · exact ih _ rr.1 rr.2 (by rw [hrest]) e he

theorem gen_amplifiers_loop_timed_out (topo : Topology) (rand : Nat → Nat)
    (parsed : FlowRecord) (t : Nat) (node : Node) (sink : Sink) :
    ∀ (ids : List Nat) (st : St) (emis : List Emis) (st1 : St),
      gen_amplifiers_loop topo rand parsed (some t) false node sink ids st
        = Except.ok (emis, st1) →
      ∀ e ∈ emis, TimedBy topo.flow_duration e.record := by
  intro ids
  induction ids with
  | nil =>
    intro st emis st1 hh e he
    injection hh with hp
    cases hp
    exact absurd he (List.not_mem_nil e)
  | cons i rest ih =>
    intro st emis st1 hh e he
    simp only [gen_amplifiers_loop] at hh
    cases hv : st.victimNode with
    | none =>
      simp only [req, hv, Bool.false_eq_true, if_false, Bind.bind, Except.bind] at hh
      exact Except.noConfusion hh
    | some vn =>
      cases hvip : vn.victim_ip with
      | none =>
        simp only [req, hv, hvip, Bool.false_eq_true, if_false, Bind.bind, Except.bind] at hh
        exact Except.noConfusion hh
      | some vip =>
        cases hrest : gen_amplifiers_loop topo rand parsed (some t) false node sink
            rest (randint 0 topo.reflect_output_bytes_per_flow rand
              (randint 0 topo.reflect_output_packets_per_flow rand st).2).2 with
        | error m =>
          simp only [req, hv, hvip, hrest, Bool.false_eq_true, if_false, Bind.bind, Except.bind] at hh
          exact Except.noConfusion hh
        | ok rr =>
          simp only [req, hv, hvip, hrest, Bool.false_eq_true, if_false, Bind.bind, Except.bind,
            Except.ok.injEq, Prod.mk.injEq] at hh
          rw [← hh.1] at he
          rcases List.mem_cons.mp he with he | he
          · subst he
            exact ⟨t + 10 * (1 + i), rfl, rfl, rfl⟩
          · exact ih _ rr.1 rr.2 (by rw [hrest]) e he

theorem gen_victim_amps_node_timed (topo : Topology) (rand : Nat → Nat)
    (parsed : FlowRecord) (t : Nat) (ampnode : Node) :
    ∀ (ids : List Nat) (st : St) (emis : List Emis) (st1 : St),
      gen_victim_amps_node topo rand parsed (some t) ampnode ids st
        = Except.ok (emis, st1) →
      ∀ e ∈ emis, TimedBy topo.flow_duration e.record := by
  intro ids
  induction ids with
  | nil =>
    intro st emis st1 hh e he
    injection hh with hp
    cases hp
    exact absurd he (List.not_mem_nil e)
  | cons i rest ih =>
    intro st emis st1 hh e he
    simp only [gen_victim_amps_node] at hh
    cases hv : st.victimNode with
    | none =>
      simp only [req, hv, Bind.bind, Except.bind] at hh
      exact Except.noConfusion hh
    | some vn =>
      cases hvip : vn.victim_ip with
      | none =>
        simp only [req, hv, hvip, Bind.bind, Except.bind] at hh
        exact Except.noConfusion hh
      | some vip =>
        cases hrest : gen_victim_amps_node topo rand parsed (some t) ampnode
            rest (randint 0 topo.reflect_output_bytes_per_flow rand
              (randint 0 topo.reflect_output_packets_per_flow rand st).2).2 with
        | error m =>
          simp only [req, hv, hvip, hrest, Bind.bind, Except.bind] at hh
          exact Except.noConfusion hh
        | ok rr =>
          simp only [req, hv, hvip, hrest, Bind.bind, Except.bind,
            Except.ok.injEq, Prod.mk.injEq] at hh
          rw [← hh.1] at he
          rcases List.mem_cons.mp he with he | he
          · subst he
            exact ⟨t + 10 * (1 + i), rfl, rfl, rfl⟩
          · exact ih _ rr.1 rr.2 (by rw [hrest]) e he

theorem gen_bots_loop_timed (topo : Topology) (rand : Nat → Nat)
    (parsed : FlowRecord) (t : Nat) (node : Node) (sink : Sink) :
    ∀ (ids : List Nat) (st : St) (emis : List Emis) (st1 : St),
      gen_bots_loop topo rand parsed (some t) node sink ids st
        = Except.ok (emis, st1) →
      ∀ e ∈ emis, TimedBy topo.flow_duration e.record := by
  intro ids
  induction ids with
  | nil =>
    intro st emis st1 hh e he
    injection hh with hp
    cases hp
    exact absurd he (List.not_mem_nil e)
  | cons i rest ih =>
    intro st emis st1 hh e he
    simp only [gen_bots_loop] at hh
    cases hv : st.victimNode with
    | none =>
      simp only [req, hv, Bind.bind, Except.bind] at hh
      exact Except.noConfusion hh
    | some vn =>
      cases hvip : vn.victim_ip with
      | none =>
        simp only [req, hv, hvip, Bind.bind, Except.bind] at hh
        exact Except.noConfusion hh
      | some vip =>
        cases hrest : gen_bots_loop topo rand parsed (some t) node sink
            rest (randint 0 topo.bot_output_bytes_per_flow rand
              (randint 0 topo.bot_output_packets_per_flow rand
                (get_bot_src_port st
                  (md5it (node.own_network ++ Nat.repr i ++ "bot"))).2).2).2 with
        | error m =>
          simp only [req, hv, hvip, hrest, Bind.bind, Except.bind] at hh
          exact Except.noConfusion hh
        | ok rr =>
          simp only [req, hv, hvip, hrest, Bind.bind, Except.bind,
            Except.ok.injEq, Prod.mk.injEq] at hh
          rw [← hh.1] at he
          rcases List.mem_cons.mp he with he | he
          · subst he
            exact ⟨t + 10 * (1 + i), rfl, rfl, rfl⟩
          · exact ih _ rr.1 rr.2 (by rw [hrest]) e he

theorem gen_victim_bots_node_timed (topo : Topology) (rand : Nat → Nat)
    (parsed : FlowRecord) (t : Nat) (botnode : Node) :
    ∀ (ids : List Nat) (st : St) (emis : List Emis) (st1 : St),
      gen_victim_bots_node topo rand parsed (some t) botnode ids st
        = Except.ok (emis, st1) →
      ∀ e ∈ emis, TimedBy topo.flow_duration e.record := by
  intro ids
  induction ids with
  | nil =>
    intro st emis st1 hh e he
    injection hh with hp
    cases hp
    exact absurd he (List.not_mem_nil e)
  | cons i rest ih =>
    intro st emis st1 hh e he
    simp only [gen_victim_bots_node] at hh
    cases hv : st.victimNode with
    | none =>
      simp only [req, hv, Bind.bind, Except.bind] at hh
      exact Except.noConfusion hh
    | some vn =>
      cases hvip : vn.victim_ip with
      | none =>
        simp only [req, hv, hvip, Bind.bind, Except.bind] at hh
        exact Except.noConfusion hh
      | some vip =>
        cases hrest : gen_victim_bots_node topo rand parsed (some t) botnode
            rest (randint 0 topo.bot_output_bytes_per_flow rand
              (randint 0 topo.bot_output_packets_per_flow rand
                (get_bot_src_port st
                  (md5it (botnode.own_network ++ Nat.repr i ++ "bot"))).2).2).2 with
        | error m =>
          simp only [req, hv, hvip, hrest, Bind.bind, Except.bind] at hh
          exact Except.noConfusion hh
        | ok rr =>
          simp only [req, hv, hvip, hrest, Bind.bind, Except.bind,
            Except.ok.injEq, Prod.mk.injEq] at hh
          rw [← hh.1] at he
          rcases List.mem_cons.mp he with he | he
          · subst he
            exact ⟨t + 10 * (1 + i), rfl, rfl, rfl⟩
          · exact ih _ rr.1 rr.2 (by rw [hrest]) e he

theorem gen_probes_loop_timed (topo : Topology) (rand : Nat → Nat)
    (parsed : FlowRecord) (t : Nat) (node : Node) (sink : Sink) :
    ∀ (ids : List Nat) (st : St) (emis : List Emis) (st1 : St),
      gen_probes_loop topo rand parsed (some t) node sink ids st
        = Except.ok (emis, st1) →
      ∀ e ∈ emis, TimedBy topo.probes_duration e.record := by
  intro ids
  induction ids with
  | nil =>
    intro st emis st1 hh e he
    injection hh with hp
    cases hp
    exact absurd he (List.not_mem_nil e)
  | cons i rest ih =>
    intro st emis st1 hh e he
    simp only [gen_probes_loop] at hh
    cases hsrc : gen_rand_ip rand none st with
    | error m =>
      simp only [req, hsrc, Bind.bind, Except.bind] at hh
      exact Except.noConfusion hh
    | ok srcp =>
      cases hdst : gen_rand_ip rand (some node.own_network) srcp.2 with
      | error m =>
        simp only [req, hsrc, hdst, Bind.bind, Except.bind] at hh
        exact Except.noConfusion hh
      | ok dstp =>
        cases hrest : gen_probes_loop topo rand parsed (some t) node sink
            rest (randint 49152 65535 rand dstp.2).2 with
        | error m =>
          simp only [req, hsrc, hdst, hrest, Bind.bind, Except.bind] at hh
          exact Except.noConfusion hh
        | ok rr =>
          simp only [req, hsrc, hdst, hrest, Bind.bind, Except.bind,
            Except.ok.injEq, Prod.mk.injEq] at hh
          rw [← hh.1] at he
          rcases List.mem_cons.mp he with he | he
          · subst he
            exact ⟨t + 15 * (1 + i), rfl, rfl, rfl⟩
          · exact ih _ rr.1 rr.2 (by rw [hrest]) e he

theorem gen_victim_amps_timed (topo : Topology) (rand : Nat → Nat)
    (parsed : FlowRecord) (t : Nat) :
    ∀ (nodes : List Node) (st : St) (emis : List Emis) (st1 : St),
      gen_victim_amps topo rand parsed (some t) nodes st
        = Except.ok (emis, st1) →
      ∀ e ∈ emis, TimedBy topo.flow_duration e.record := by
  intro nodes
  induction nodes with
  | nil =>
    intro st emis st1 hh e he
    injection hh with hp
    cases hp
    exact absurd he (List.not_mem_nil e)
  | cons n rest ih =>
    intro st emis st1 hh e he
    simp only [gen_victim_amps] at hh
    cases ha : n.has_amplifiers with
    | false =>
      rw [ha] at hh
      exact ih st emis st1 (by simpa using hh) e he
    | true =>
      rw [ha] at hh
      cases hA : gen_victim_amps_node topo rand parsed (some t) n
          (List.range topo.amplifiers_per_node) st with
      | error m =>
        simp only [hA, if_true, Bind.bind, Except.bind] at hh
        exact Except.noConfusion hh
      | ok a =>
        cases hR : gen_victim_amps topo rand parsed (some t) rest a.2 with
        | error m =>
          simp only [hA, hR, if_true, Bind.bind, Except.bind] at hh
          exact Except.noConfusion hh
        | ok b =>
          simp only [hA, hR, if_true, Bind.bind, Except.bind, Except.ok.injEq,
            Prod.mk.injEq] at hh
          rw [← hh.1] at he
          rcases List.mem_append.mp he with he | he
          · exact gen_victim_amps_node_timed topo rand parsed t n _ st a.1 a.2
              (by rw [hA]) e he
          · exact ih a.2 b.1 b.2 (by rw [hR]) e he

theorem gen_victim_bots_timed (topo : Topology) (rand : Nat → Nat)
    (parsed : FlowRecord) (t : Nat) :
    ∀ (nodes : List Node) (st : St) (emis : List Emis) (st1 : St),
      gen_victim_bots topo rand parsed (some t) nodes st
        = Except.ok (emis, st1) →
      ∀ e ∈ emis, TimedBy topo.flow_duration e.record := by
  intro nodes
  induction nodes with
  | nil =>
    intro st emis st1 hh e he
    injection hh with hp
    cases hp
    exact absurd he (List.not_mem_nil e)
  | cons n rest ih =>
    intro st emis st1 hh e he
    simp only [gen_victim_bots] at hh
    cases hb : n.has_bots with
    | false =>
      rw [hb] at hh
      exact ih st emis st1 (by simpa using hh) e he
    | true =>
      rw [hb] at hh
      cases hB : gen_victim_bots_node topo rand parsed (some t) n
          (List.range topo.bots_per_node) st with
      | error m =>
        simp only [hB, if_true, Bind.bind, Except.bind] at hh
        exact Except.noConfusion hh
      | ok a =>
        cases hR : gen_victim_bots topo rand parsed (some t) rest a.2 with
        | error m =>
          simp only [hB, hR, if_true, Bind.bind, Except.bind] at hh
          exact Except.noConfusion hh
        | ok b =>
          simp only [hB, hR, if_true, Bind.bind, Except.bind, Except.ok.injEq,
            Prod.mk.injEq] at hh
          rw [← hh.1] at he
          rcases List.mem_append.mp he with he | he
          · exact gen_victim_bots_node_timed topo rand parsed t n _ st a.1 a.2
              (by rw [hB]) e he
          · exact ih a.2 b.1 b.2 (by rw [hR]) e he

/-- Claim C9: for every synthetic record emitted by any generator
(amplifier, bot, victim aggregation, probe), the serialized end timestamp
is the rendering of start + offset + duration for the very duration value
written to the duration field, so serialized end = serialized start plus
serialized duration exactly. -/
theorem C9_timing :
    (∀ (topo : Topology) (rand : Nat → Nat) (parsed : FlowRecord) (t : Nat)
        (isInbound : Bool) (node : Node) (sink : Sink) (st : St)
        (emis : List Emis) (st1 : St),
      gen_amplifiers topo rand parsed (some t) isInbound node sink st
        = Except.ok (emis, st1) →
      ∀ e ∈ emis, TimedBy topo.flow_duration e.record)
    ∧ (∀ (topo : Topology) (rand : Nat → Nat) (parsed : FlowRecord) (t : Nat)
        (isInbound : Bool) (node : Node) (sink : Sink) (st : St)
        (emis : List Emis) (st1 : St),
      gen_bots topo rand parsed (some t) isInbound node sink st
        = Except.ok (emis, st1) →
      ∀ e ∈ emis, TimedBy topo.flow_duration e.record)
    ∧ (∀ (topo : Topology) (rand : Nat → Nat) (parsed : FlowRecord) (t : Nat)
        (isInbound : Bool) (st : St) (emis : List Emis) (st1 : St),
      gen_victim topo rand parsed (some t) isInbound st = Except.ok (emis, st1) →
      ∀ e ∈ emis, TimedBy topo.flow_duration e.record)
    ∧ (∀ (topo : Topology) (rand : Nat → Nat) (parsed : FlowRecord) (t : Nat)
        (isInbound : Bool) (node : Node) (sink : Sink) (st : St)
        (emis : List Emis) (st1 : St),
      gen_probes topo rand parsed (some t) isInbound node sink st
        = Except.ok (emis, st1) →
      ∀ e ∈ emis, TimedBy topo.probes_duration e.record) := by
  refine ⟨?_, ?_, ?_, ?_⟩
  · intro topo rand parsed t isInbound node sink st emis st1 hok e he
    cases isInbound with
    | true =>
      exact gen_amplifiers_loop_timed_in topo rand parsed t node sink
        (List.range topo.amplifiers_per_node) st emis st1 hok e he
    | false =>
      exact gen_amplifiers_loop_timed_out topo rand parsed t node sink
        (List.range topo.amplifiers_per_node) st emis st1 hok e he
  · intro topo rand parsed t isInbound node sink st emis st1 hok e he
    cases isInbound with
    | true =>
      have hok2 : Except.ok (([] : List Emis), st) = Except.ok (emis, st1) := hok
      injection hok2 with hp
      cases hp
      exact absurd he (List.not_mem_nil e)
    | false =>
      exact gen_bots_loop_timed topo rand parsed t node sink
        (List.range topo.bots_per_node) st emis st1 hok e he
  · intro topo rand parsed t isInbound st emis st1 hok e he
    cases isInbound with
    | false =>
      have hok2 : Except.ok (([] : List Emis), st) = Except.ok (emis, st1) := hok
      injection hok2 with hp
      cases hp
      exact absurd he (List.not_mem_nil e)
    | true =>
      have hok2 : (do
          let a ← gen_victim_amps topo rand parsed (some t) topo.nodelist st
          let b ← gen_victim_bots topo rand parsed (some t) topo.nodelist a.2
          Except.ok (a.1 ++ b.1, b.2) : Except String (List Emis × St))
          = Except.ok (emis, st1) := hok
      cases hA : gen_victim_amps topo rand parsed (some t) topo.nodelist st with
      | error m =>
        simp only [hA, Bind.bind, Except.bind] at hok2
        exact Except.noConfusion hok2
      | ok a =>
        cases hB : gen_victim_bots topo rand parsed (some t) topo.nodelist a.2 with
        | error m =>
          simp only [hA, hB, Bind.bind, Except.bind] at hok2
          exact Except.noConfusion hok2
        | ok b =>
          simp only [hA, hB, Bind.bind, Except.bind, Except.ok.injEq,
            Prod.mk.injEq] at hok2
          rw [← hok2.1] at he
          rcases List.mem_append.mp he with he | he
          · exact gen_victim_amps_timed topo rand parsed t topo.nodelist st
              a.1 a.2 (by rw [hA]) e he
          · exact gen_victim_bots_timed topo rand parsed t topo.nodelist a.2
              b.1 b.2 (by rw [hB]) e he
  · intro topo rand parsed t isInbound node sink st emis st1 hok e he
    cases isInbound with
    | false =>
      have hok2 : Except.ok (([] : List Emis), st) = Except.ok (emis, st1) := hok
      injection hok2 with hp
      cases hp
      exact absurd he (List.not_mem_nil e)
    | true =>
      exact gen_probes_loop_timed topo rand parsed t node sink
        (List.range topo.probes_per_timestep) st emis st1 hok e he

/-- Witness for C9_timing: the concrete outbound amplifier record of
nodeAmp and the concrete probe record of nodeV. -/
theorem C9_timing_witness :
    (∀ e ∈ ([⟨⟨"C", false⟩, ampRecOut⟩] : List Emis),
      TimedBy topoAmp.flow_duration e.record)
    ∧ (∀ e ∈ ([⟨⟨"V", true⟩, probeRecV⟩] : List Emis),
      TimedBy topoV.probes_duration e.record) :=
  ⟨C9_timing.1 topoAmp rand0 rec0 1704067200000 false nodeAmp ⟨"C", false⟩
      stV [⟨⟨"C", false⟩, ampRecOut⟩] stA1 (by decide),
   C9_timing.2.2.2 topoV rand0 rec0 1704067200000 true nodeV ⟨"V", true⟩
      stV [⟨⟨"V", true⟩, probeRecV⟩] { stV with randIdx := 7 } (by decide)⟩

/-! ## Claim C1: the shared parsed record across vantage points -/

/-- The record value after the address rewrites of a list of vantage points
have been applied in sequence: the state of the one shared parsed list
after those nodes' iterations of the foreach_noise node loop. -/
def chainRewrite (isInbound : Bool) (nodes : List Node) (parsed : FlowRecord) :
    Except String FlowRecord :=
  nodes.foldlM (fun r n => rewriteFields isInbound n r) parsed

/-- Two attacker-free vantage points for observing the fan-out. -/
def cx1 : Node := ⟨"172.16", "A", false, false, none⟩
def cx2 : Node := ⟨"172.17", "B", false, false, none⟩

def topoC1 : Topology := { topoV with nodelist := [cx1, cx2] }

def p1C1 : FlowRecord :=
  { rec0 with srcIp := "172.16.254.169", dstIp := "216.62.236.150" }

def p2C1 : FlowRecord :=
  { rec0 with srcIp := "172.17.168.54", dstIp := "237.178.228.255" }

def q2C1 : FlowRecord :=
  { rec0 with srcIp := "172.17.254.169", dstIp := "158.126.78.242" }

/-- Claim C1 counterexample: fanning the parsed line0 (rec0) out over the
two vantage points cx1, cx2 in the outbound direction, the second vantage
point receives the record as already rewritten by the first (p1C1), not the
originally parsed rec0: the record emitted for cx2 is p2C1 = rewrite of
p1C1, which differs from q2C1 = rewrite of the original rec0.  Mutation for
one view leaks into the next, and cx2's addresses are computed from cx1's
rewritten addresses. -/
theorem C1_counterexample :
    parse_line line0 = some rec0
    ∧ processNodes topoC1 rand0 false false topoC1.nodelist rec0 stV
      = Except.ok ([⟨⟨"A", false⟩, p1C1⟩, ⟨⟨"B", false⟩, p2C1⟩], p2C1, stV)
    ∧ rewriteFields false cx1 rec0 = Except.ok p1C1
    ∧ rewriteFields false cx2 p1C1 = Except.ok p2C1
    ∧ rewriteFields false cx2 rec0 = Except.ok q2C1
    ∧ p2C1 ≠ q2C1 :=
  ⟨by decide, by decide, by decide, by decide, by decide, by decide⟩

theorem exceptBindOk {α β : Type} (x : Except String α) (f : α → Except String β)
    (b : β) (h : x >>= f = Except.ok b) :
    ∃ a, x = Except.ok a ∧ f a = Except.ok b := by
  cases x with
  | error m =>
    simp only [Bind.bind, Except.bind] at h
    exact Except.noConfusion h
  | ok a =>
    exact ⟨a, rfl, by simpa only [Bind.bind, Except.bind] using h⟩

theorem exceptIteBindOk {α β : Type} (c : Prop) [Decidable c]
    (x y : Except String α) (f : α → Except String β) (b : β)
    (h : (if c then x >>= f else y >>= f) = Except.ok b) :
    ∃ a, f a = Except.ok b := by
  by_cases hc : c
  · rw [if_pos hc] at h
    obtain ⟨a, _, hf⟩ := exceptBindOk _ _ _ h
    exact ⟨a, hf⟩
  · rw [if_neg hc] at h
    obtain ⟨a, _, hf⟩ := exceptBindOk _ _ _ h
    exact ⟨a, hf⟩

/-- On any successful rewrite -- synthesis triggered or not -- the record
returned to the node loop is exactly the pure address rewrite of the record
received (synthesis does not further mutate the shared record), and the
emissions for the node start with the base emission of that rewritten
record. -/
theorem rewrite_head (topo : Topology) (rand : Nat → Nat) (parsed : FlowRecord)
    (isInbound : Bool) (node : Node) (addAttack : Bool) (st : St)
    (p2 : FlowRecord) (emis : List Emis) (st1 : St)
    (hh : rewrite topo rand parsed isInbound node addAttack st
      = Except.ok (p2, emis, st1)) :
    rewriteFields isInbound node parsed = Except.ok p2
    ∧ ∃ extra, emis = ⟨⟨node.name, isInbound⟩, p2⟩ :: extra := by
  rw [rewrite] at hh
  obtain ⟨q, hq, hh⟩ := exceptBindOk _ _ _ hh
  try simp only [] at hh
  cases addAttack with
  | false =>
    rw [if_neg Bool.false_ne_true] at hh
    injection hh with hp
    injection hp with h1 h2
    injection h2 with h2 h3
    subst h1
    exact ⟨hq, [], h2.symm⟩
  | true =>
    rw [if_pos rfl] at hh
    try simp only [] at hh
    obtain ⟨e1, hh⟩ := exceptIteBindOk _ _ _ _ _ hh
    try simp only [] at hh
    obtain ⟨e2, hh⟩ := exceptIteBindOk _ _ _ _ _ hh
    try simp only [] at hh
    obtain ⟨vn, hvn, hh⟩ := exceptBindOk _ _ _ hh
    try simp only [] at hh
    obtain ⟨e3, hh⟩ := exceptIteBindOk _ _ _ _ _ hh
    try simp only [] at hh
    obtain ⟨e4, hh⟩ := exceptIteBindOk _ _ _ _ _ hh
    try simp only [] at hh
    injection hh with hp
    injection hp with h1 h2
    injection h2 with h2 h3
    subst h1
    exact ⟨hq, e1.1 ++ e2.1 ++ e3.1 ++ e4.1, h2.symm⟩

/-- Claim C1 (amended): the parsed record is shared and threaded through
the per-line node loop, for trigger and non-trigger lines alike: the
emissions split into one block per vantage point, the k-th block starts
with the base emission of rewriteFields applied to chainRewrite over the
first k nodes (the record as left by all previous vantage points'
rewrites, not the original record), and the record left at the end of the
line is the chain of all the address rewrites -- synthesis reads the
shared record but never mutates it further. -/
theorem C1_shared_record (topo : Topology) (rand : Nat → Nat) (isInbound : Bool)
    (addAttack : Bool) :
    ∀ (nodes : List Node) (parsed : FlowRecord) (st : St) (emis : List Emis)
      (pF : FlowRecord) (stF : St),
      processNodes topo rand isInbound addAttack nodes parsed st
        = Except.ok (emis, pF, stF) →
      chainRewrite isInbound nodes parsed = Except.ok pF
      ∧ ∃ blocks : List (List Emis), emis = blocks.join
          ∧ blocks.length = nodes.length
          ∧ ∀ k (nd : Node), nodes.get? k = some nd →
              ∃ pk p2 extra,
                chainRewrite isInbound (nodes.take k) parsed = Except.ok pk
                ∧ rewriteFields isInbound nd pk = Except.ok p2
                ∧ blocks.get? k = some (⟨⟨nd.name, isInbound⟩, p2⟩ :: extra) := by
  intro nodes
  induction nodes with
  | nil =>
    intro parsed st emis pF stF hh
    injection hh with hp
    injection hp with h1 h2
    injection h2 with h2 h3
    subst h1
    subst h2
    exact ⟨rfl, [], rfl, rfl, fun k nd hnd => absurd hnd (by simp)⟩
  | cons node rest ih =>
    intro parsed st emis pF stF hh
    simp only [processNodes] at hh
    obtain ⟨r, hr, hh⟩ := exceptBindOk _ _ _ hh
    try simp only [] at hh
    obtain ⟨rr, hrr, hh⟩ := exceptBindOk _ _ _ hh
    try simp only [] at hh
    injection hh with hp
    injection hp with h1 h2
    have h2a : rr.2.1 = pF := by rw [h2]
    obtain ⟨hrw, extra, hextra⟩ := rewrite_head topo rand parsed isInbound node
      addAttack st r.1 r.2.1 r.2.2 (by rw [hr])
    obtain ⟨ihchain, blocks', hjoin, hlen, hidx⟩ :=
      ih r.1 r.2.2 rr.1 rr.2.1 rr.2.2 (by rw [hrr])
    refine ⟨?_, r.2.1 :: blocks', ?_, ?_, ?_⟩
    · rw [← h2a]
      simp only [chainRewrite, List.foldlM_cons, hrw]
      exact ihchain
    · rw [← h1, hjoin]
      simp
    · simp only [List.length_cons, hlen]
    · intro k nd hnd
      cases k with
      | zero =>
        injection hnd with hnd
        subst hnd
        exact ⟨parsed, r.1, extra, rfl, hrw, by rw [hextra]; rfl⟩
      | succ k =>
        obtain ⟨pk, p2k, ex, hchain, hrwk, hget⟩ := hidx k nd (by simpa using hnd)
        refine ⟨pk, p2k, ex, ?_, hrwk, ?_⟩
        · show chainRewrite isInbound (node :: rest.take k) parsed = Except.ok pk
          simp only [chainRewrite, List.foldlM_cons, hrw]
          exact hchain
        · simpa using hget

/-- The base records and the probe records of the inbound, synthesis-
triggered fan-out of rec0 over topoC1's two vantage points. -/
def c1r1 : FlowRecord :=
  { rec0 with srcIp := "30.192.53.249", dstIp := "172.16.164.108" }

def c1r2 : FlowRecord :=
  { rec0 with srcIp := "238.252.111.4", dstIp := "172.17.43.136" }

def c1probeA : FlowRecord :=
  { rec0 with
    srcIp := "1.1.1.1", dstIp := "172.16.1.1", srcPort := "49152",
    dstPort := "2323", packets := "6", bytes := "384",
    sTime := "2024/01/01T00:00:00.015", duration := "5.000",
    eTime := "2024/01/01T00:00:05.015" }

def c1probeB : FlowRecord :=
  { c1probeA with dstIp := "172.17.1.1" }

/-- Witness for C1_shared_record at the concrete two-node fan-out of
C1_counterexample, inbound with synthesis triggered: each node's block
holds its base emission followed by its probe, and the record left behind
is the chain of both rewrites. -/
theorem C1_shared_record_witness :
    chainRewrite true topoC1.nodelist rec0 = Except.ok c1r2
    ∧ ∃ blocks : List (List Emis),
        ([⟨⟨"A", true⟩, c1r1⟩, ⟨⟨"A", true⟩, c1probeA⟩,
          ⟨⟨"B", true⟩, c1r2⟩, ⟨⟨"B", true⟩, c1probeB⟩] : List Emis)
          = blocks.join
        ∧ blocks.length = topoC1.nodelist.length
        ∧ ∀ k (nd : Node), topoC1.nodelist.get? k = some nd →
            ∃ pk p2 extra,
              chainRewrite true (topoC1.nodelist.take k) rec0 = Except.ok pk
              ∧ rewriteFields true nd pk = Except.ok p2
              ∧ blocks.get? k = some (⟨⟨nd.name, true⟩, p2⟩ :: extra) :=
  C1_shared_record topoC1 rand0 true true topoC1.nodelist rec0 stV
    [⟨⟨"A", true⟩, c1r1⟩, ⟨⟨"A", true⟩, c1probeA⟩,
     ⟨⟨"B", true⟩, c1r2⟩, ⟨⟨"B", true⟩, c1probeB⟩]
    c1r2 { stV with randIdx := 14 } (by decide)

/-! ## Claim C2: header lines on a synthesis trigger -/

/-- An rwcut header line: the sentinels sIP and sTime in the address and
start-time columns. -/
def headerLine : String :=
  "            sIP|            dIP|sPort|dPort|pro|   packets|     bytes|   flags|                  sTime|      dur|                  eTime|sen|"

/-- The parse of headerLine: every field stripped except the flags column,
the timestamp slot left unparsed. -/
def headerRec : FlowRecord :=
  ⟨"sIP", "dIP", "sPort", "dPort", "pro", "packets", "bytes", "   flags",
   "sTime", "dur", "eTime", "sen", none⟩

/-- Claim C2 (code bug): a header line does pass through the address
transformation unchanged (second conjunct: no anonymization), but the
synthesis block of rewrite is NOT guarded by the header check: when the
header line falls on a synthesis trigger the generators run with the
unparsed start-time slot and the pass aborts (Python: TypeError adding a
timedelta to the leftover string) instead of skipping synthesis -- here on
the second line of an interval-0 inbound pass with probes enabled. -/
theorem C2_header_trigger_bug :
    parse_line headerLine = some headerRec
    ∧ rewriteFields true nodeV headerRec = Except.ok headerRec
    ∧ foreach_noise topoV rand0 [line0, headerLine] true stV
      = Except.error "TypeError: start_time is not a datetime" :=
  ⟨by decide, by decide, by decide⟩

end DFG
